import Mathlib

/-!
Verification of the UDF descriptor codec of pycdlib (src/pycdlib/udf.py).

Byte buffers are modelled as `List Nat`; a well-formed buffer has every entry
below 256 (Python `bytes`), which theorems assume explicitly where needed.
Values of multi-byte fields are read and written little-endian, following the
`struct` format strings of the source (`=` prefix, `B`/`H`/`L`/`Q`/`Ns`).
Fallible operations return `Option`: `none` stands for any raised exception
(`PyCdlibInvalidISO`, `PyCdlibInternalError`, `struct.error`).  The mutable
`_initialized` flag of the source has no observable effect beyond gating
double initialization, so descriptor objects are modelled as plain structure
values holding the fields of their `__slots__`.
-/

namespace Pycdlib

/-- Byte of a buffer at index `i`; 0 past the end.  Reads in the source
(`data[i]`, `struct.unpack_from`) are guarded by explicit length conditions
in the parse functions, so the default is never observed there. -/
def byteAt (l : List Nat) (i : Nat) : Nat := (l.drop i).headD 0

/-- Little-endian 16-bit read, the semantics of an `H` field of
`struct.unpack_from`. -/
def read16 (l : List Nat) (o : Nat) : Nat := byteAt l o + 256 * byteAt l (o + 1)

/-- Little-endian 32-bit read, the semantics of an `L` field. -/
def read32 (l : List Nat) (o : Nat) : Nat :=
  byteAt l o + 256 * byteAt l (o + 1) + 65536 * byteAt l (o + 2) +
    16777216 * byteAt l (o + 3)

/-- Little-endian 64-bit read, the semantics of a `Q` field. -/
def read64 (l : List Nat) (o : Nat) : Nat := read32 l o + 4294967296 * read32 l (o + 4)

/-- Little-endian 16-bit write (`struct.pack` `H` field, value in range). -/
def pack16 (x : Nat) : List Nat := [x % 256, x / 256 % 256]

/-- Little-endian 32-bit write (`struct.pack` `L` field, value in range). -/
def pack32 (x : Nat) : List Nat :=
  [x % 256, x / 256 % 256, x / 65536 % 256, x / 16777216 % 256]

/-- Little-endian 64-bit write (`struct.pack` `Q` field, value in range). -/
def pack64 (x : Nat) : List Nat :=
  [x % 256, x / 256 % 256, x / 65536 % 256, x / 16777216 % 256,
   x / 4294967296 % 256, x / 1099511627776 % 256, x / 281474976710656 % 256,
   x / 72057594037927936 % 256]

/-- Semantics of an `Ns` field of `struct.pack`: truncate to `n` bytes or pad
with NULs up to `n` bytes. -/
def packBytes (n : Nat) (s : List Nat) : List Nat :=
  s.take n ++ List.replicate (n - s.length) 0

/-- Sum of the bytes of a buffer, as accumulated by the loop of
`_compute_csum`. -/
def byteSum (l : List Nat) : Nat := l.foldl (· + ·) 0

/-- The CRC polynomial constant `POLYNOMIAL = 0x11021` of udf.py. -/
def POLYNOMIAL : Nat := 0x11021

/-- The 8-iteration loop of `_initial`, shifting `crc` and `c` left and
XOR-ing in the polynomial whenever bit 15 of `crc XOR c` is set.  Note the
source performs no 16-bit masking here: entries can exceed 0xFFFF. -/
def _initialGo (crc c : Nat) : Nat → Nat
  | 0 => crc
  | j + 1 =>
    if (crc ^^^ c) &&& 0x8000 ≠ 0 then _initialGo ((crc <<< 1) ^^^ POLYNOMIAL) (c <<< 1) j
    else _initialGo (crc <<< 1) (c <<< 1) j

/-- The function `_initial(c)` of udf.py: the raw table entry for index `c`
of the CRC CCITT table, starting from `crc = 0` and `c << 8`. -/
def _initial (c : Nat) : Nat := _initialGo 0 (c <<< 8) 8

/-- The module-level table `_tab = [_initial(i) for i in range(256)]`. -/
def _tab : List Nat := (List.range 256).map _initial

/-- The function `_update_crc(crc, c)` of udf.py: one step of the
table-driven CRC, masked to 16 bits. -/
def _update_crc (crc c : Nat) : Nat :=
  let cc := 0xff &&& c
  let tmp := (crc >>> 8) ^^^ cc
  ((crc <<< 8) ^^^ _tab.getD (tmp &&& 0xff) 0) &&& 0xffff

/-- The function `crc_ccitt(data)` of udf.py: fold `_update_crc` over the
buffer starting from 0. -/
def crc_ccitt (data : List Nat) : Nat := data.foldl _update_crc 0

/-- The function `_compute_csum(data)` of udf.py: sum of all bytes minus the
byte at offset 4, modulo 256.  Since `data[4]` is one of the summands,
natural subtraction agrees with Python integer subtraction here. -/
def _compute_csum (data : List Nat) : Nat := (byteSum data - byteAt data 4) % 256

/-- The four fields retained by `UDFTag` (its `__slots__` besides
`_initialized`): `desc_crc` and `desc_crc_length` are NOT stored. -/
structure UDFTag where
  tag_ident : Nat
  desc_version : Nat
  tag_serial_number : Nat
  tag_location : Nat
  deriving DecidableEq

/-- The method `UDFTag.parse(data, extent, crc_bytes)`.  `data` is the
16-byte tag slice; layout `=HHBBHHHL`.  The extent argument is an integer
because callers pass `extent - start_extent`, which can be negative in
Python.  All `raise` paths collapse to `none`. -/
def UDFTag.parse (data : List Nat) (extent : Int) (crc_bytes : List Nat) : Option UDFTag :=
  if 16 ≤ data.length ∧
     byteAt data 5 = 0 ∧
     _compute_csum data = byteAt data 4 ∧
     (read32 data 12 : Int) = extent ∧
     (read16 data 2 = 2 ∨ read16 data 2 = 3) ∧
     read16 data 10 ≤ crc_bytes.length ∧
     read16 data 8 = crc_ccitt (crc_bytes.take (read16 data 10)) then
    some ⟨read16 data 0, read16 data 2, read16 data 6, read32 data 12⟩
  else none

/-- The 16-byte buffer built by `UDFTag.record` before the checksum patch:
checksum field 0, `desc_crc = crc_ccitt(crc_bytes)`,
`desc_crc_length = len(crc_bytes)`. -/
def UDFTag.rec0 (t : UDFTag) (crc_bytes : List Nat) : List Nat :=
  pack16 t.tag_ident ++ pack16 t.desc_version ++ [0, 0] ++ pack16 t.tag_serial_number ++
    pack16 (crc_ccitt crc_bytes) ++ pack16 crc_bytes.length ++ pack32 t.tag_location

/-- The bytes returned by `UDFTag.record`: `rec0` with byte 4 patched to the
computed checksum (`rec[4] = struct.pack("=B", csum)`). -/
def UDFTag.recBytes (t : UDFTag) (crc_bytes : List Nat) : List Nat :=
  (t.rec0 crc_bytes).set 4 (_compute_csum (t.rec0 crc_bytes))

/-- Range conditions under which the `struct.pack` call of `UDFTag.record`
succeeds (`H` fields below 2^16, `L` field below 2^32; the CRC is masked by
`_update_crc` and always fits). -/
def UDFTag.packOK (t : UDFTag) (crc_bytes : List Nat) : Prop :=
  t.tag_ident < 65536 ∧ t.desc_version < 65536 ∧ t.tag_serial_number < 65536 ∧
    crc_bytes.length < 65536 ∧ t.tag_location < 4294967296

instance (t : UDFTag) (cb : List Nat) : Decidable (t.packOK cb) := by
  unfold UDFTag.packOK; infer_instance

/-- The method `UDFTag.record(crc_bytes)`.  Returns the 16 tag bytes. -/
def UDFTag.record (t : UDFTag) (crc_bytes : List Nat) : Option (List Nat) :=
  if t.packOK crc_bytes then some (t.recBytes crc_bytes) else none

/-- Common tail of every descriptor `record` method of udf.py:
`return self.desc_tag.record(window) + body`. -/
def sealTag (t : UDFTag) (window body : List Nat) : Option (List Nat) :=
  (t.record window).map (· ++ body)

/-- State of `UDFAnchorVolumeStructure` (its `__slots__`). -/
structure UDFAnchorVolumeStructure where
  orig_extent_loc : Nat
  new_extent_loc : Option Nat
  main_vd_length : Nat
  main_vd_extent : Nat
  reserve_vd_length : Nat
  reserve_vd_extent : Nat
  udf_tag : UDFTag
  deriving DecidableEq

/-- The method `UDFAnchorVolumeStructure.parse(data, extent)`: layout
`=16sLLLL`; the embedded tag is parsed against `extent` with CRC bytes
`data[16:]`, and the tag identifier must be 2. -/
def UDFAnchorVolumeStructure.parse (data : List Nat) (extent : Nat) :
    Option UDFAnchorVolumeStructure :=
  if 32 ≤ data.length then
    match UDFTag.parse (data.take 16) (extent : Int) (data.drop 16) with
    | none => none
    | some tag =>
      if tag.tag_ident = 2 then
        some ⟨extent, none, read32 data 16, read32 data 20, read32 data 24, read32 data 28, tag⟩
      else none
  else none

/-- The 496-byte body assembled by `UDFAnchorVolumeStructure.record`:
`struct.pack(FMT, ...)[16:] + 480 zero bytes`. -/
def UDFAnchorVolumeStructure.body (st : UDFAnchorVolumeStructure) : List Nat :=
  pack32 st.main_vd_length ++ pack32 st.main_vd_extent ++ pack32 st.reserve_vd_length ++
    pack32 st.reserve_vd_extent ++ List.replicate 480 0

/-- The method `UDFAnchorVolumeStructure.record()`: seal the tag over the
whole 496-byte body and prepend it. -/
def UDFAnchorVolumeStructure.record (st : UDFAnchorVolumeStructure) : Option (List Nat) :=
  if st.main_vd_length < 4294967296 ∧ st.main_vd_extent < 4294967296 ∧
     st.reserve_vd_length < 4294967296 ∧ st.reserve_vd_extent < 4294967296 then
    sealTag st.udf_tag st.body st.body
  else none

/-- The method `UDFAnchorVolumeStructure.extent_location()`: the new extent
location if relocated, else the original. -/
def UDFAnchorVolumeStructure.extent_location (st : UDFAnchorVolumeStructure) : Nat :=
  st.new_extent_loc.getD st.orig_extent_loc

/-- State of `UDFTimestamp` (its `__slots__`); `tz` is a signed minute
offset, hence an integer. -/
structure UDFTimestamp where
  year : Nat
  month : Nat
  day : Nat
  hour : Nat
  minute : Nat
  second : Nat
  centiseconds : Nat
  hundreds_microseconds : Nat
  microseconds : Nat
  timetype : Nat
  tz : Int
  deriving DecidableEq

/-- The method `UDFTimestamp.parse(data)`: layout `=BBHBBBBBBBB`; the
12-bit timezone is sign-extended (`twos_comp`), and the range checks of the
source are applied.  The `< 0` halves of the hour/minute/second checks are
vacuous for unsigned byte fields. -/
def UDFTimestamp.parse (data : List Nat) : Option UDFTimestamp :=
  let tzRaw := ((byteAt data 1 &&& 0xf) <<< 8) ||| byteAt data 0
  let tz : Int := if tzRaw &&& 0x800 ≠ 0 then (tzRaw : Int) - 4096 else (tzRaw : Int)
  if 12 ≤ data.length ∧
     (((-1440 : Int) ≤ tz ∧ tz ≤ 1440) ∨ tz = -2047) ∧
     1 ≤ read16 data 2 ∧ read16 data 2 ≤ 9999 ∧
     1 ≤ byteAt data 4 ∧ byteAt data 4 ≤ 12 ∧
     1 ≤ byteAt data 5 ∧ byteAt data 5 ≤ 31 ∧
     byteAt data 6 ≤ 23 ∧ byteAt data 7 ≤ 59 ∧ byteAt data 8 ≤ 59 then
    some ⟨read16 data 2, byteAt data 4, byteAt data 5, byteAt data 6, byteAt data 7,
          byteAt data 8, byteAt data 9, byteAt data 10, byteAt data 11,
          byteAt data 1 >>> 4, tz⟩
  else none

/-- Second byte emitted by `UDFTimestamp.record`: high 4 bits of the masked
timezone OR the time type shifted left 4. -/
def UDFTimestamp.newtimetype (ts : UDFTimestamp) : Nat :=
  (((ts.tz % 65536).toNat >>> 8) &&& 0x0f) ||| (ts.timetype <<< 4)

/-- The 12 bytes emitted by `UDFTimestamp.record`; the timezone is masked
with `((1 << 16) - 1) & tz`, which for Python integers equals `tz mod 2^16`. -/
def UDFTimestamp.recBytes (ts : UDFTimestamp) : List Nat :=
  [(ts.tz % 65536).toNat &&& 0xff, ts.newtimetype] ++ pack16 ts.year ++
    [ts.month, ts.day, ts.hour, ts.minute, ts.second, ts.centiseconds,
     ts.hundreds_microseconds, ts.microseconds]

/-- Range conditions for the `struct.pack` call of `UDFTimestamp.record`. -/
def UDFTimestamp.packOK (ts : UDFTimestamp) : Prop :=
  ts.newtimetype < 256 ∧ ts.year < 65536 ∧ ts.month < 256 ∧ ts.day < 256 ∧
    ts.hour < 256 ∧ ts.minute < 256 ∧ ts.second < 256 ∧ ts.centiseconds < 256 ∧
    ts.hundreds_microseconds < 256 ∧ ts.microseconds < 256

instance (ts : UDFTimestamp) : Decidable ts.packOK := by
  unfold UDFTimestamp.packOK; infer_instance

/-- The method `UDFTimestamp.record()`. -/
def UDFTimestamp.record (ts : UDFTimestamp) : Option (List Nat) :=
  if ts.packOK then some ts.recBytes else none

/-- State of `UDFEntityID` (its `__slots__`). -/
structure UDFEntityID where
  flags : Nat
  identifier : List Nat
  suffix : List Nat
  deriving DecidableEq

/-- The method `UDFEntityID.parse(data)`: layout `=B23s8s`, no validation. -/
def UDFEntityID.parse (data : List Nat) : Option UDFEntityID :=
  if 32 ≤ data.length then
    some ⟨byteAt data 0, (data.drop 1).take 23, (data.drop 24).take 8⟩
  else none

/-- The 32 bytes emitted by `UDFEntityID.record`. -/
def UDFEntityID.recBytes (e : UDFEntityID) : List Nat :=
  [e.flags] ++ packBytes 23 e.identifier ++ packBytes 8 e.suffix

/-- The method `UDFEntityID.record()`. -/
def UDFEntityID.record (e : UDFEntityID) : Option (List Nat) :=
  if e.flags < 256 then some e.recBytes else none

/-- State of `UDFLongAD` (its `__slots__`). -/
structure UDFLongAD where
  extent_length : Nat
  log_block_num : Nat
  part_ref_num : Nat
  impl_use : List Nat
  deriving DecidableEq

/-- The method `UDFLongAD.parse(data)`: layout `=LLH6s`, no validation. -/
def UDFLongAD.parse (data : List Nat) : Option UDFLongAD :=
  if 16 ≤ data.length then
    some ⟨read32 data 0, read32 data 4, read16 data 8, (data.drop 10).take 6⟩
  else none

/-- The 16 bytes emitted by `UDFLongAD.record`. -/
def UDFLongAD.recBytes (a : UDFLongAD) : List Nat :=
  pack32 a.extent_length ++ pack32 a.log_block_num ++ pack16 a.part_ref_num ++
    packBytes 6 a.impl_use

/-- The method `UDFLongAD.record()`. -/
def UDFLongAD.record (a : UDFLongAD) : Option (List Nat) :=
  if a.extent_length < 4294967296 ∧ a.log_block_num < 4294967296 ∧
     a.part_ref_num < 65536 then
    some a.recBytes
  else none

/-- State of `UDFICBTag` (its `__slots__`). -/
structure UDFICBTag where
  prior_num_direct_entries : Nat
  strategy_type : Nat
  strategy_param : Nat
  max_num_entries : Nat
  file_type : Nat
  parent_icb_log_block_num : Nat
  parent_icb_part_ref_num : Nat
  flags : Nat
  deriving DecidableEq

/-- The method `UDFICBTag.parse(data)`: layout `=LHHHBBLHH`; the strategy
type must be 4 or 4096 and the reserved byte must be 0. -/
def UDFICBTag.parse (data : List Nat) : Option UDFICBTag :=
  if 20 ≤ data.length ∧ (read16 data 4 = 4 ∨ read16 data 4 = 4096) ∧
     byteAt data 10 = 0 then
    some ⟨read32 data 0, read16 data 4, read16 data 6, read16 data 8, byteAt data 11,
          read32 data 12, read16 data 16, read16 data 18⟩
  else none

/-- The 20 bytes emitted by `UDFICBTag.record`. -/
def UDFICBTag.recBytes (t : UDFICBTag) : List Nat :=
  pack32 t.prior_num_direct_entries ++ pack16 t.strategy_type ++ pack16 t.strategy_param ++
    pack16 t.max_num_entries ++ [0, t.file_type] ++ pack32 t.parent_icb_log_block_num ++
    pack16 t.parent_icb_part_ref_num ++ pack16 t.flags

/-- The method `UDFICBTag.record()`. -/
def UDFICBTag.record (t : UDFICBTag) : Option (List Nat) :=
  if t.prior_num_direct_entries < 4294967296 ∧ t.strategy_type < 65536 ∧
     t.strategy_param < 65536 ∧ t.max_num_entries < 65536 ∧ t.file_type < 256 ∧
     t.parent_icb_log_block_num < 4294967296 ∧ t.parent_icb_part_ref_num < 65536 ∧
     t.flags < 65536 then
    some t.recBytes
  else none

/-- State of `UDFLogicalVolumeHeaderDescriptor` (its `__slots__`). -/
structure UDFLogicalVolumeHeaderDescriptor where
  unique_id : Nat
  deriving DecidableEq

/-- The method `UDFLogicalVolumeHeaderDescriptor.parse(data)`: layout
`=Q24s`, no validation. -/
def UDFLogicalVolumeHeaderDescriptor.parse (data : List Nat) :
    Option UDFLogicalVolumeHeaderDescriptor :=
  if 32 ≤ data.length then some ⟨read64 data 0⟩ else none

/-- The 32 bytes emitted by `UDFLogicalVolumeHeaderDescriptor.record`. -/
def UDFLogicalVolumeHeaderDescriptor.recBytes (h : UDFLogicalVolumeHeaderDescriptor) :
    List Nat :=
  pack64 h.unique_id ++ List.replicate 24 0

/-- The method `UDFLogicalVolumeHeaderDescriptor.record()`. -/
def UDFLogicalVolumeHeaderDescriptor.record (h : UDFLogicalVolumeHeaderDescriptor) :
    Option (List Nat) :=
  if h.unique_id < 18446744073709551616 then some h.recBytes else none

/-- State of `UDFLogicalVolumeImplementationUse` (its `__slots__`). -/
structure UDFLogicalVolumeImplementationUse where
  impl_id : UDFEntityID
  num_files : Nat
  num_dirs : Nat
  min_udf_read_revision : Nat
  min_udf_write_revision : Nat
  max_udf_write_revision : Nat
  impl_use : List Nat
  deriving DecidableEq

/-- The method `UDFLogicalVolumeImplementationUse.parse(data)`: layout
`=32sLLHHH` followed by `impl_use = data[46:]`. -/
def UDFLogicalVolumeImplementationUse.parse (data : List Nat) :
    Option UDFLogicalVolumeImplementationUse :=
  if 46 ≤ data.length then
    match UDFEntityID.parse (data.take 32) with
    | none => none
    | some eid =>
      some ⟨eid, read32 data 32, read32 data 36, read16 data 40, read16 data 42,
            read16 data 44, data.drop 46⟩
  else none

/-- The method `UDFLogicalVolumeImplementationUse.record()`: the packed
fixed part plus the stored opaque `impl_use` tail. -/
def UDFLogicalVolumeImplementationUse.record (u : UDFLogicalVolumeImplementationUse) :
    Option (List Nat) := do
  let eid ← u.impl_id.record
  if u.num_files < 4294967296 ∧ u.num_dirs < 4294967296 ∧
     u.min_udf_read_revision < 65536 ∧ u.min_udf_write_revision < 65536 ∧
     u.max_udf_write_revision < 65536 then
    pure (packBytes 32 eid ++ pack32 u.num_files ++ pack32 u.num_dirs ++
      pack16 u.min_udf_read_revision ++ pack16 u.min_udf_write_revision ++
      pack16 u.max_udf_write_revision ++ u.impl_use)
  else none

/-- State of `UDFLogicalVolumeIntegrityDescriptor` (its `__slots__`). -/
structure UDFLogicalVolumeIntegrityDescriptor where
  orig_extent_loc : Nat
  new_extent_loc : Option Nat
  length_impl_use : Nat
  free_space_table : Nat
  size_table : Nat
  desc_tag : UDFTag
  recording_date : UDFTimestamp
  logical_volume_contents_use : UDFLogicalVolumeHeaderDescriptor
  logical_volume_impl_use : UDFLogicalVolumeImplementationUse
  deriving DecidableEq

/-- The method `UDFLogicalVolumeIntegrityDescriptor.parse(data, extent)`:
layout `=16s12sLLL32sLLLL424s` (512 bytes).  The embedded tag is parsed with
CRC bytes `data[16:16+118]`; integrity type must be 1, the next-integrity
extent must be zero, there must be one partition, the implementation-use
length must be at most 424, and the free-space table must be 0. -/
def UDFLogicalVolumeIntegrityDescriptor.parse (data : List Nat) (extent : Nat) :
    Option UDFLogicalVolumeIntegrityDescriptor :=
  if 512 ≤ data.length then
    match UDFTag.parse (data.take 16) (extent : Int) ((data.drop 16).take 118) with
    | none => none
    | some tag =>
      if tag.tag_ident = 9 then
        match UDFTimestamp.parse ((data.drop 16).take 12) with
        | none => none
        | some ts =>
          if read32 data 28 = 1 ∧ read32 data 32 = 0 ∧ read32 data 36 = 0 ∧
             read32 data 72 = 1 ∧ read32 data 76 ≤ 424 ∧ read32 data 80 = 0 then
            match UDFLogicalVolumeHeaderDescriptor.parse ((data.drop 40).take 32) with
            | none => none
            | some lvh =>
              match UDFLogicalVolumeImplementationUse.parse ((data.drop 88).take 424) with
              | none => none
              | some lvi =>
                some ⟨extent, none, read32 data 76, read32 data 80, read32 data 84,
                      tag, ts, lvh, lvi⟩
          else none
      else none
  else none

/-- The 496-byte body assembled by
`UDFLogicalVolumeIntegrityDescriptor.record` (`struct.pack(FMT, ...)[16:]`,
with the implementation-use record padded or truncated to 424 bytes by the
`424s` field). -/
def UDFLogicalVolumeIntegrityDescriptor.body (st : UDFLogicalVolumeIntegrityDescriptor) :
    Option (List Nat) := do
  let tsr ← st.recording_date.record
  let lvhr ← st.logical_volume_contents_use.record
  let lvir ← st.logical_volume_impl_use.record
  if st.length_impl_use < 4294967296 ∧ st.free_space_table < 4294967296 ∧
     st.size_table < 4294967296 then
    pure (packBytes 12 tsr ++ pack32 1 ++ pack32 0 ++ pack32 0 ++ packBytes 32 lvhr ++
      pack32 1 ++ pack32 st.length_impl_use ++ pack32 st.free_space_table ++
      pack32 st.size_table ++ packBytes 424 lvir)
  else none

/-- The method `UDFLogicalVolumeIntegrityDescriptor.record()`: the tag is
sealed over `rec[:118]` only. -/
def UDFLogicalVolumeIntegrityDescriptor.record (st : UDFLogicalVolumeIntegrityDescriptor) :
    Option (List Nat) := do
  let b ← st.body
  sealTag st.desc_tag (b.take 118) b

/-- The method `UDFLogicalVolumeIntegrityDescriptor.extent_location()`. -/
def UDFLogicalVolumeIntegrityDescriptor.extent_location
    (st : UDFLogicalVolumeIntegrityDescriptor) : Nat :=
  st.new_extent_loc.getD st.orig_extent_loc

/-- State of `UDFTerminatingDescriptor` (its `__slots__`). -/
structure UDFTerminatingDescriptor where
  orig_extent_loc : Nat
  new_extent_loc : Option Nat
  desc_tag : UDFTag
  deriving DecidableEq

/-- The method `UDFTerminatingDescriptor.parse(data, extent, start_extent)`:
layout `=16s496s`; the embedded tag is validated against
`extent - start_extent` and must have identifier 8. -/
def UDFTerminatingDescriptor.parse (data : List Nat) (extent start_extent : Nat) :
    Option UDFTerminatingDescriptor :=
  if 512 ≤ data.length then
    match UDFTag.parse (data.take 16) ((extent : Int) - (start_extent : Int))
        (data.drop 16) with
    | none => none
    | some tag => if tag.tag_ident = 8 then some ⟨extent, none, tag⟩ else none
  else none

/-- The constant 496-byte zero body emitted by
`UDFTerminatingDescriptor.record`. -/
def UDFTerminatingDescriptor.bodyBytes : List Nat := List.replicate 496 0

/-- The method `UDFTerminatingDescriptor.record()`. -/
def UDFTerminatingDescriptor.record (st : UDFTerminatingDescriptor) : Option (List Nat) :=
  sealTag st.desc_tag UDFTerminatingDescriptor.bodyBytes UDFTerminatingDescriptor.bodyBytes

/-- The method `UDFTerminatingDescriptor.extent_location()`. -/
def UDFTerminatingDescriptor.extent_location (st : UDFTerminatingDescriptor) : Nat :=
  st.new_extent_loc.getD st.orig_extent_loc

/-- The method `UDFTerminatingDescriptor.set_location(new_location,
tag_location=None)`: the tag location defaults to the new location. -/
def UDFTerminatingDescriptor.set_location (st : UDFTerminatingDescriptor)
    (new_location : Nat) (tag_location : Option Nat) : UDFTerminatingDescriptor :=
  { st with new_extent_loc := some new_location,
            desc_tag := { st.desc_tag with tag_location := tag_location.getD new_location } }

/-- State of `UDFPrimaryVolumeDescriptor` (its `__slots__`). -/
structure UDFPrimaryVolumeDescriptor where
  orig_extent_loc : Nat
  new_extent_loc : Option Nat
  vol_desc_seqnum : Nat
  desc_num : Nat
  volume_identifier : List Nat
  vol_set_ident : List Nat
  desc_char_set : List Nat
  explanatory_char_set : List Nat
  vol_abstract_length : Nat
  vol_abstract_extent : Nat
  vol_copyright_length : Nat
  vol_copyright_extent : Nat
  implementation_use : List Nat
  predecessor_vol_desc_location : Nat
  desc_tag : UDFTag
  recording_date : UDFTimestamp
  app_ident : UDFEntityID
  impl_ident : UDFEntityID
  deriving DecidableEq

/-- The 496-byte body assembled by `UDFPrimaryVolumeDescriptor.record`
(layout `=16sLL32sHHHHLL128s64s64sLLLL32s12s32s64sLH22s`, constants
`vol_seqnum=1, max_vol_seqnum=1, interchange=2, max_interchange=2,
charset_list=1, max_charset_list=1, flags=0`, 22 zero reserved bytes). -/
def UDFPrimaryVolumeDescriptor.body (st : UDFPrimaryVolumeDescriptor) :
    Option (List Nat) := do
  let appr ← st.app_ident.record
  let tsr ← st.recording_date.record
  let implr ← st.impl_ident.record
  if st.vol_desc_seqnum < 4294967296 ∧ st.desc_num < 4294967296 ∧
     st.vol_abstract_length < 4294967296 ∧ st.vol_abstract_extent < 4294967296 ∧
     st.vol_copyright_length < 4294967296 ∧ st.vol_copyright_extent < 4294967296 ∧
     st.predecessor_vol_desc_location < 4294967296 then
    pure (pack32 st.vol_desc_seqnum ++ pack32 st.desc_num ++
      packBytes 32 st.volume_identifier ++ pack16 1 ++ pack16 1 ++ pack16 2 ++ pack16 2 ++
      pack32 1 ++ pack32 1 ++ packBytes 128 st.vol_set_ident ++
      packBytes 64 st.desc_char_set ++ packBytes 64 st.explanatory_char_set ++
      pack32 st.vol_abstract_length ++ pack32 st.vol_abstract_extent ++
      pack32 st.vol_copyright_length ++ pack32 st.vol_copyright_extent ++
      packBytes 32 appr ++ packBytes 12 tsr ++ packBytes 32 implr ++
      packBytes 64 st.implementation_use ++ pack32 st.predecessor_vol_desc_location ++
      pack16 0 ++ List.replicate 22 0)
  else none

/-- The method `UDFPrimaryVolumeDescriptor.record()`. -/
def UDFPrimaryVolumeDescriptor.record (st : UDFPrimaryVolumeDescriptor) :
    Option (List Nat) := do
  let b ← st.body
  sealTag st.desc_tag b b

/-- The method `UDFPrimaryVolumeDescriptor.extent_location()`. -/
def UDFPrimaryVolumeDescriptor.extent_location (st : UDFPrimaryVolumeDescriptor) : Nat :=
  st.new_extent_loc.getD st.orig_extent_loc

/-- The method `UDFPrimaryVolumeDescriptor.set_location(new_location)`. -/
def UDFPrimaryVolumeDescriptor.set_location (st : UDFPrimaryVolumeDescriptor)
    (new_location : Nat) : UDFPrimaryVolumeDescriptor :=
  { st with new_extent_loc := some new_location,
            desc_tag := { st.desc_tag with tag_location := new_location } }

/-- State of `UDFFileEntry` (its `__slots__`; the `descs` slot is only ever
the empty list within this module and the `file_entry` back-pointer of FIDs
is never populated by the code under verification, so both are omitted). -/
structure UDFFileEntry where
  orig_extent_loc : Nat
  new_extent_loc : Option Nat
  uid : Nat
  gid : Nat
  perms : Nat
  file_link_count : Nat
  info_len : Nat
  log_block_recorded : Nat
  unique_id : Nat
  len_extended_attrs : Nat
  len_alloc_descs : Nat
  desc_tag : UDFTag
  icb_tag : UDFICBTag
  alloc_descs : List (Nat × Nat)
  access_time : UDFTimestamp
  mod_time : UDFTimestamp
  attr_time : UDFTimestamp
  extended_attr_icb : UDFLongAD
  impl_ident : UDFEntityID
  extended_attrs : List Nat
  deriving DecidableEq

/-- The allocation-descriptor loop of `UDFFileEntry.parse`: read `n`
8-byte `(length, pos)` pairs starting at `offset`; each `struct.unpack`
needs exactly 8 bytes, so a short buffer fails. -/
def readADs (data : List Nat) (offset : Nat) : Nat → Option (List (Nat × Nat))
  | 0 => some []
  | n + 1 =>
    if offset + 8 ≤ data.length then
      match readADs data (offset + 8) n with
      | none => none
      | some rest => some ((read32 data offset, read32 data (offset + 4)) :: rest)
    else none

/-- The method `UDFFileEntry.parse(data, extent, start_extent)`: layout
`=16s20sLLLHBBLQQ12s12s12sL16s32sQLL` (176 bytes).  The embedded tag is
validated against `extent - start_extent` with CRC bytes `data[16:16+168]`;
record format, display attributes and record length must be 0 and the
checkpoint must be 1.  The number of allocation descriptors is
`len_alloc_descs / 8` with Python 2 floor division (no multiple-of-8
check). -/
def UDFFileEntry.parse (data : List Nat) (extent start_extent : Nat) :
    Option UDFFileEntry :=
  if 176 ≤ data.length then
    match UDFTag.parse (data.take 16) ((extent : Int) - (start_extent : Int))
        ((data.drop 16).take 168) with
    | none => none
    | some tag =>
      if tag.tag_ident = 261 then
        match UDFICBTag.parse ((data.drop 16).take 20) with
        | none => none
        | some icb =>
          if byteAt data 50 = 0 ∧ byteAt data 51 = 0 ∧ read32 data 52 = 0 then
            match UDFTimestamp.parse ((data.drop 72).take 12) with
            | none => none
            | some ats =>
              match UDFTimestamp.parse ((data.drop 84).take 12) with
              | none => none
              | some mts =>
                match UDFTimestamp.parse ((data.drop 96).take 12) with
                | none => none
                | some cts =>
                  if read32 data 108 = 1 then
                    match UDFLongAD.parse ((data.drop 112).take 16) with
                    | none => none
                    | some eicb =>
                      match UDFEntityID.parse ((data.drop 128).take 32) with
                      | none => none
                      | some iid =>
                        match readADs data (176 + read32 data 168) (read32 data 172 / 8) with
                        | none => none
                        | some ads =>
                          some ⟨extent, none, read32 data 36, read32 data 40,
                                read32 data 44, read16 data 48, read64 data 56,
                                read64 data 64, read64 data 160, read32 data 168,
                                read32 data 172, tag, icb, ads, ats, mts, cts, eicb, iid,
                                (data.drop 176).take (read32 data 168)⟩
                  else none
          else none
      else none
  else none

/-- The allocation-descriptor loop of `UDFFileEntry.record`: append each
`(length, pos)` pair as `=LL`. -/
def packADs : List (Nat × Nat) → Option (List Nat)
  | [] => some []
  | (len, pos) :: rest =>
    if len < 4294967296 ∧ pos < 4294967296 then
      match packADs rest with
      | none => none
      | some r => some (pack32 len ++ pack32 pos ++ r)
    else none

/-- The body assembled by `UDFFileEntry.record`: the fixed 160-byte part
(`struct.pack(FMT, ...)[16:]` with constants `record_format=0`,
`record_display_attrs=0`, `record_len=0`, `checkpoint=1`) followed by the
allocation descriptors.  Note the source appends `alloc_descs` but never
`extended_attrs`. -/
def UDFFileEntry.body (st : UDFFileEntry) : Option (List Nat) := do
  let icbr ← st.icb_tag.record
  let ar ← st.access_time.record
  let mr ← st.mod_time.record
  let cr ← st.attr_time.record
  let er ← st.extended_attr_icb.record
  let ir ← st.impl_ident.record
  let adsr ← packADs st.alloc_descs
  if st.uid < 4294967296 ∧ st.gid < 4294967296 ∧ st.perms < 4294967296 ∧
     st.file_link_count < 65536 ∧ st.info_len < 18446744073709551616 ∧
     st.log_block_recorded < 18446744073709551616 ∧
     st.unique_id < 18446744073709551616 ∧ st.len_extended_attrs < 4294967296 ∧
     st.len_alloc_descs < 4294967296 then
    pure (packBytes 20 icbr ++ pack32 st.uid ++ pack32 st.gid ++ pack32 st.perms ++
      pack16 st.file_link_count ++ [0, 0] ++ pack32 0 ++ pack64 st.info_len ++
      pack64 st.log_block_recorded ++ packBytes 12 ar ++ packBytes 12 mr ++
      packBytes 12 cr ++ pack32 1 ++ packBytes 16 er ++ packBytes 32 ir ++
      pack64 st.unique_id ++ pack32 st.len_extended_attrs ++
      pack32 st.len_alloc_descs ++ adsr)
  else none

/-- The method `UDFFileEntry.record()`: the tag is sealed over the whole
body (fixed part plus allocation descriptors). -/
def UDFFileEntry.record (st : UDFFileEntry) : Option (List Nat) := do
  let b ← st.body
  sealTag st.desc_tag b b

/-- The method `UDFFileEntry.extent_location()`. -/
def UDFFileEntry.extent_location (st : UDFFileEntry) : Nat :=
  st.new_extent_loc.getD st.orig_extent_loc

/-- The method `UDFFileEntry.set_location(new_location, tag_location)`:
unlike the other descriptors, the tag location is a separate mandatory
argument. -/
def UDFFileEntry.set_location (st : UDFFileEntry) (new_location tag_location : Nat) :
    UDFFileEntry :=
  { st with new_extent_loc := some new_location,
            desc_tag := { st.desc_tag with tag_location := tag_location } }

/-- State of `UDFFileIdentifierDescriptor` (its `__slots__`). -/
structure UDFFileIdentifierDescriptor where
  orig_extent_loc : Nat
  new_extent_loc : Option Nat
  desc_tag : UDFTag
  file_characteristics : Nat
  len_fi : Nat
  len_impl_use : Nat
  fi : List Nat
  isdir : Bool
  isparent : Bool
  icb : UDFLongAD
  impl_use : List Nat
  deriving DecidableEq

/-- The static method `UDFFileIdentifierDescriptor.pad(val)`:
`(4 * ((val + 3) // 4)) - val`. -/
def UDFFileIdentifierDescriptor.pad (val : Nat) : Nat := 4 * ((val + 3) / 4) - val

/-- The method `UDFFileIdentifierDescriptor.parse(data, extent,
start_extent)`: layout `=16sHBB16sH` (38 bytes).  The embedded tag is
validated against `extent - start_extent` with CRC bytes `data[16:]`; the
tag identifier must be 257 and the file version number 1.  Returns the
parsed descriptor together with the number of bytes consumed,
`end + pad(end)` for `end = 38 + len_impl_use + len_fi`. -/
def UDFFileIdentifierDescriptor.parse (data : List Nat) (extent start_extent : Nat) :
    Option (UDFFileIdentifierDescriptor × Nat) :=
  if 38 ≤ data.length then
    match UDFTag.parse (data.take 16) ((extent : Int) - (start_extent : Int))
        (data.drop 16) with
    | none => none
    | some tag =>
      if tag.tag_ident = 257 ∧ read16 data 16 = 1 then
        match UDFLongAD.parse ((data.drop 20).take 16) with
        | none => none
        | some icb =>
          some (⟨extent, none, tag, byteAt data 18, byteAt data 19, read16 data 36,
                 (data.drop (38 + read16 data 36)).take (byteAt data 19),
                 byteAt data 18 &&& 0x2 != 0, byteAt data 18 &&& 0x8 != 0, icb,
                 (data.drop 38).take (read16 data 36)⟩,
                38 + read16 data 36 + byteAt data 19 +
                  UDFFileIdentifierDescriptor.pad (38 + read16 data 36 + byteAt data 19))
      else none
  else none

/-- The method `UDFFileIdentifierDescriptor.record()`: the packed fixed
part with the stored `len_fi`/`len_impl_use` fields, followed by the raw
`impl_use` and `fi` buffers and zero padding computed from the stored
length fields. -/
def UDFFileIdentifierDescriptor.record (st : UDFFileIdentifierDescriptor) :
    Option (List Nat) := do
  let icbr ← st.icb.record
  if st.file_characteristics < 256 ∧ st.len_fi < 256 ∧ st.len_impl_use < 65536 then
    let b := pack16 1 ++ [st.file_characteristics, st.len_fi] ++ packBytes 16 icbr ++
      pack16 st.len_impl_use ++ st.impl_use ++ st.fi ++
      List.replicate (UDFFileIdentifierDescriptor.pad (38 + st.len_impl_use + st.len_fi)) 0
    sealTag st.desc_tag b b
  else none

/-- The method `UDFFileIdentifierDescriptor.extent_location()`. -/
def UDFFileIdentifierDescriptor.extent_location (st : UDFFileIdentifierDescriptor) : Nat :=
  st.new_extent_loc.getD st.orig_extent_loc

/-!
Concrete test vectors used by the counterexamples and witnesses below.
Each is a byte buffer accepted by the corresponding parse method (checked by
kernel evaluation in the theorems); tag checksums are the sums of the
remaining fifteen tag bytes modulo 256, and each buffer carries
`desc_crc = 0` with `desc_crc_length = 0` (the CRC of an empty window is 0)
unless stated otherwise.
-/

/-- A 12-byte timestamp with year 1, month 1, day 1, everything else 0. -/
def tsBytes : List Nat := [0, 0, 1, 0, 1, 1, 0, 0, 0, 0, 0, 0]

/-- An Anchor Volume Structure buffer of 512 bytes whose `desc_crc_length`
field is 0: it parses, but `record()` emits `desc_crc_length = 496`. -/
def anchorBufShortCrc : List Nat :=
  [2, 0, 2, 0, 4, 0, 0, 0, 0, 0, 0, 0, 0, 0, 0, 0] ++ List.replicate 496 0

/-- The canonical 512-byte Anchor Volume Structure buffer with
`desc_crc_length = 496` (bytes 10 and 11 are 240 and 1) and checksum
2 + 2 + 240 + 1 = 245. -/
def anchorBufCanonical : List Nat :=
  [2, 0, 2, 0, 245, 0, 0, 0, 0, 0, 240, 1, 0, 0, 0, 0] ++ List.replicate 496 0

/-- A 44-byte File Identifier Descriptor buffer with `len_fi = 5` and
`len_impl_use = 0` (tag identifier 257, checksum 1 + 1 + 2 = 4). -/
def fidBuf : List Nat :=
  [1, 1, 2, 0, 4, 0, 0, 0, 0, 0, 0, 0, 0, 0, 0, 0] ++ [1, 0] ++ [0] ++ [5] ++
    List.replicate 16 0 ++ [0, 0] ++ [65, 66, 67, 68, 69] ++ [0]

/-- A 176-byte File Entry buffer with `len_alloc_descs = 4`, which is not a
multiple of 8 (tag identifier 261, checksum 5 + 1 + 2 = 8, ICB strategy
type 4, checkpoint 1, valid timestamps). -/
def feBuf : List Nat :=
  [5, 1, 2, 0, 8, 0, 0, 0, 0, 0, 0, 0, 0, 0, 0, 0] ++
    ([0, 0, 0, 0] ++ [4, 0] ++ List.replicate 14 0) ++ List.replicate 36 0 ++
    tsBytes ++ tsBytes ++ tsBytes ++ [1, 0, 0, 0] ++ List.replicate 56 0 ++
    [0, 0, 0, 0] ++ [4, 0, 0, 0]

/-- A 512-byte Terminating Descriptor buffer with `tag_location = 4`,
parsed at extent 7 with start extent 3 (checksum 8 + 2 + 4 = 14). -/
def termBuf : List Nat :=
  [8, 0, 2, 0, 14, 0, 0, 0, 0, 0, 0, 0, 4, 0, 0, 0] ++ List.replicate 496 0

/-- A 512-byte Logical Volume Integrity Descriptor buffer with
`desc_crc_length = 0` (tag identifier 9, checksum 9 + 2 = 11, integrity
type 1, one partition): it parses even though the CRC over the first 118
body bytes is nonzero. -/
def lvidBuf : List Nat :=
  [9, 0, 2, 0, 11, 0, 0, 0, 0, 0, 0, 0, 0, 0, 0, 0] ++ tsBytes ++ [1, 0, 0, 0] ++
    List.replicate 40 0 ++ [1, 0, 0, 0] ++ List.replicate 436 0

/-- A concrete valid timestamp state (year 1, month 1, day 1). -/
def tsSt : UDFTimestamp := ⟨1, 1, 1, 0, 0, 0, 0, 0, 0, 0, 0⟩

/-- A concrete File Entry state used to exercise `set_location` and
`record`. -/
def feSt : UDFFileEntry :=
  ⟨0, none, 0, 0, 0, 0, 0, 0, 0, 0, 0, ⟨261, 2, 0, 0⟩, ⟨0, 4, 0, 0, 0, 0, 0, 0⟩, [],
   tsSt, tsSt, tsSt, ⟨0, 0, 0, []⟩, ⟨0, [], []⟩, []⟩

/-- A concrete Primary Volume Descriptor state used to exercise
`set_location` and `record`. -/
def pvdSt : UDFPrimaryVolumeDescriptor :=
  ⟨0, none, 0, 0, [], [], [], [], 0, 0, 0, 0, [], 0, ⟨1, 2, 0, 0⟩, tsSt,
   ⟨0, [], []⟩, ⟨0, [], []⟩⟩

/-- A concrete Terminating Descriptor state used to exercise `set_location`
and `record`. -/
def termSt : UDFTerminatingDescriptor := ⟨0, none, ⟨8, 2, 0, 0⟩⟩

/-- A concrete Logical Volume Integrity Descriptor state used to exercise
`record`. -/
def lvidSt : UDFLogicalVolumeIntegrityDescriptor :=
  ⟨0, none, 0, 0, 0, ⟨9, 2, 0, 0⟩, tsSt, ⟨0⟩, ⟨⟨0, [], []⟩, 0, 0, 0, 0, 0, []⟩⟩

/-- The state produced by parsing `anchorBufShortCrc` or `anchorBufCanonical`
at extent 0. -/
def anchorSt0 : UDFAnchorVolumeStructure := ⟨0, none, 0, 0, 0, 0, ⟨2, 2, 0, 0⟩⟩

/-- The state produced by parsing `termBuf` at extent 7 with start extent 3. -/
def termStP : UDFTerminatingDescriptor := ⟨7, none, ⟨8, 2, 0, 4⟩⟩

/-- The state produced by parsing `feBuf` at extent 0 with start extent 0. -/
def feStP : UDFFileEntry :=
  ⟨0, none, 0, 0, 0, 0, 0, 0, 0, 0, 4, ⟨261, 2, 0, 0⟩, ⟨0, 4, 0, 0, 0, 0, 0, 0⟩, [],
   tsSt, tsSt, tsSt, ⟨0, 0, 0, List.replicate 6 0⟩,
   ⟨0, List.replicate 23 0, List.replicate 8 0⟩, []⟩

/-- The state produced by parsing `fidBuf` at extent 0 with start extent 0
(the consumed-byte count is 44). -/
def fidStP : UDFFileIdentifierDescriptor :=
  ⟨0, none, ⟨257, 2, 0, 0⟩, 0, 5, 0, [65, 66, 67, 68, 69], false, false,
   ⟨0, 0, 0, List.replicate 6 0⟩, []⟩

/-- The state produced by parsing `lvidBuf` at extent 0. -/
def lvidStP : UDFLogicalVolumeIntegrityDescriptor :=
  ⟨0, none, 0, 0, 0, ⟨9, 2, 0, 0⟩, tsSt, ⟨0⟩,
   ⟨⟨0, List.replicate 23 0, List.replicate 8 0⟩, 0, 0, 0, 0, 0, List.replicate 378 0⟩⟩

/-!
Helper lemmas about the byte-buffer primitives.
-/

theorem byteAt_drop (l : List Nat) (n i : Nat) : byteAt (l.drop n) i = byteAt l (n + i) := by
  simp [byteAt, List.drop_drop, Nat.add_comm]

theorem byteAt_lt (l : List Nat) (i : Nat) (h : ∀ b ∈ l, b < 256) : byteAt l i < 256 := by
  unfold byteAt
  cases hd : l.drop i with
  | nil => simp
  | cons a t =>
    have ha : a ∈ l := by
      have : a ∈ l.drop i := by simp [hd]
      exact List.mem_of_mem_drop this
    simpa using h a ha

theorem byteAt_take (l : List Nat) (n i : Nat) (h : i < n) :
    byteAt (l.take n) i = byteAt l i := by
  unfold byteAt
  rw [List.drop_take]
  cases hd : l.drop i with
  | nil => simp
  | cons a t =>
    have hn : 0 < n - i := by omega
    cases hnk : n - i with
    | zero => omega
    | succ k => simp [hnk, hd]

theorem byteAt_append_left (l₁ l₂ : List Nat) (i : Nat) (h : i < l₁.length) :
    byteAt (l₁ ++ l₂) i = byteAt l₁ i := by
  unfold byteAt
  rw [List.drop_append_of_le_length (by omega)]
  cases hd : l₁.drop i with
  | nil =>
    have := congrArg List.length hd
    simp [List.length_drop] at this
    omega
  | cons a t => simp [hd]

theorem read16_drop (l : List Nat) (n o : Nat) : read16 (l.drop n) o = read16 l (n + o) := by
  simp [read16, byteAt_drop, Nat.add_assoc]

theorem read32_drop (l : List Nat) (n o : Nat) : read32 (l.drop n) o = read32 l (n + o) := by
  simp [read32, byteAt_drop, Nat.add_assoc]

theorem read16_take (l : List Nat) (n o : Nat) (h : o + 1 < n) :
    read16 (l.take n) o = read16 l o := by
  simp [read16, byteAt_take _ _ _ (by omega : o < n), byteAt_take _ _ _ h]

theorem read32_take (l : List Nat) (n o : Nat) (h : o + 3 < n) :
    read32 (l.take n) o = read32 l o := by
  simp [read32, byteAt_take _ _ _ (by omega : o < n), byteAt_take _ _ _ (by omega : o + 1 < n),
        byteAt_take _ _ _ (by omega : o + 2 < n), byteAt_take _ _ _ h]

theorem read16_lt (l : List Nat) (o : Nat) (h : ∀ b ∈ l, b < 256) : read16 l o < 65536 := by
  have h0 := byteAt_lt l o h
  have h1 := byteAt_lt l (o + 1) h
  unfold read16
  omega

theorem read32_lt (l : List Nat) (o : Nat) (h : ∀ b ∈ l, b < 256) :
    read32 l o < 4294967296 := by
  have h0 := byteAt_lt l o h
  have h1 := byteAt_lt l (o + 1) h
  have h2 := byteAt_lt l (o + 2) h
  have h3 := byteAt_lt l (o + 3) h
  unfold read32
  omega

theorem take2_eq (l : List Nat) (h : 2 ≤ l.length) :
    l.take 2 = [byteAt l 0, byteAt l 1] := by
  match l, h with
  | a0 :: a1 :: t, _ => simp [byteAt, List.drop]

theorem take4_eq (l : List Nat) (h : 4 ≤ l.length) :
    l.take 4 = [byteAt l 0, byteAt l 1, byteAt l 2, byteAt l 3] := by
  match l, h with
  | a0 :: a1 :: a2 :: a3 :: t, _ => simp [byteAt, List.drop]

theorem take16_eq (l : List Nat) (h : 16 ≤ l.length) :
    l.take 16 = [byteAt l 0, byteAt l 1, byteAt l 2, byteAt l 3, byteAt l 4, byteAt l 5,
                 byteAt l 6, byteAt l 7, byteAt l 8, byteAt l 9, byteAt l 10, byteAt l 11,
                 byteAt l 12, byteAt l 13, byteAt l 14, byteAt l 15] := by
  match l, h with
  | a0 :: a1 :: a2 :: a3 :: a4 :: a5 :: a6 :: a7 :: a8 :: a9 :: a10 :: a11 :: a12 :: a13 ::
      a14 :: a15 :: t, _ => simp [byteAt, List.drop]

theorem pack16_read16 (l : List Nat) (h : ∀ b ∈ l, b < 256) (hl : 2 ≤ l.length) :
    pack16 (read16 l 0) = l.take 2 := by
  rw [take2_eq l hl]
  have h0 := byteAt_lt l 0 h
  have h1 := byteAt_lt l 1 h
  unfold pack16 read16
  simp only [List.cons.injEq, Nat.zero_add, and_true]
  refine ⟨by omega, by omega⟩

theorem pack32_read32 (l : List Nat) (h : ∀ b ∈ l, b < 256) (hl : 4 ≤ l.length) :
    pack32 (read32 l 0) = l.take 4 := by
  rw [take4_eq l hl]
  have h0 := byteAt_lt l 0 h
  have h1 := byteAt_lt l 1 h
  have h2 := byteAt_lt l 2 h
  have h3 := byteAt_lt l 3 h
  unfold pack32 read32
  simp only [List.cons.injEq, Nat.zero_add, and_true]
  refine ⟨by omega, by omega, by omega, by omega⟩

theorem crc_update_lt (crc c : Nat) : _update_crc crc c < 65536 := by
  have h : _update_crc crc c ≤ 65535 := Nat.and_le_right
  omega

theorem crc_foldl_lt (l : List Nat) : ∀ c, c < 65536 → List.foldl _update_crc c l < 65536 := by
  induction l with
  | nil => intro c hc; simpa using hc
  | cons a t ih => intro c hc; rw [List.foldl_cons]; exact ih _ (crc_update_lt c a)

theorem crc_ccitt_lt (l : List Nat) : crc_ccitt l < 65536 :=
  crc_foldl_lt l 0 (by omega)

/-!
Inversion lemmas for the tag codec.
-/

theorem UDFTag.parse_some_iff (data : List Nat) (extent : Int) (cb : List Nat) (t : UDFTag) :
    UDFTag.parse data extent cb = some t ↔
      (16 ≤ data.length ∧ byteAt data 5 = 0 ∧ _compute_csum data = byteAt data 4 ∧
       ((read32 data 12 : Int) = extent) ∧ (read16 data 2 = 2 ∨ read16 data 2 = 3) ∧
       read16 data 10 ≤ cb.length ∧
       read16 data 8 = crc_ccitt (cb.take (read16 data 10))) ∧
      t = ⟨read16 data 0, read16 data 2, read16 data 6, read32 data 12⟩ := by
  unfold UDFTag.parse
  split
  case isTrue h =>
    simp only [Option.some.injEq]
    exact ⟨fun he => ⟨h, he.symm⟩, fun hc => hc.2.symm⟩
  case isFalse h =>
    simp only [reduceCtorEq, false_iff, not_and]
    exact fun hc _ => h hc

theorem UDFTag.record_some_iff (t : UDFTag) (cb : List Nat) (out : List Nat) :
    t.record cb = some out ↔ t.packOK cb ∧ out = t.recBytes cb := by
  unfold UDFTag.record
  split
  case isTrue h =>
    simp only [Option.some.injEq]
    exact ⟨fun he => ⟨h, he.symm⟩, fun hc => hc.2.symm⟩
  case isFalse h =>
    simp only [reduceCtorEq, false_iff, not_and]
    exact fun hc => absurd hc h

theorem UDFTag.recBytes_explicit (t : UDFTag) (cb : List Nat) :
    t.recBytes cb =
      [t.tag_ident % 256, t.tag_ident / 256 % 256, t.desc_version % 256,
       t.desc_version / 256 % 256, _compute_csum (t.rec0 cb), 0,
       t.tag_serial_number % 256, t.tag_serial_number / 256 % 256,
       crc_ccitt cb % 256, crc_ccitt cb / 256 % 256, cb.length % 256, cb.length / 256 % 256,
       t.tag_location % 256, t.tag_location / 256 % 256, t.tag_location / 65536 % 256,
       t.tag_location / 16777216 % 256] := rfl

theorem UDFTag.csum_rec0 (t : UDFTag) (cb : List Nat) :
    _compute_csum (t.rec0 cb) =
      (t.tag_ident % 256 + t.tag_ident / 256 % 256 + t.desc_version % 256 +
       t.desc_version / 256 % 256 + t.tag_serial_number % 256 +
       t.tag_serial_number / 256 % 256 + crc_ccitt cb % 256 + crc_ccitt cb / 256 % 256 +
       cb.length % 256 + cb.length / 256 % 256 + t.tag_location % 256 +
       t.tag_location / 256 % 256 + t.tag_location / 65536 % 256 +
       t.tag_location / 16777216 % 256) % 256 := by
  have h4 : byteAt (t.rec0 cb) 4 = 0 := rfl
  unfold _compute_csum
  rw [h4]
  unfold byteSum UDFTag.rec0 pack16 pack32
  simp only [List.cons_append, List.nil_append, List.foldl_cons, List.foldl_nil]
  omega

theorem UDFTag.recBytes_length (t : UDFTag) (cb : List Nat) : (t.recBytes cb).length = 16 := by
  rw [UDFTag.recBytes_explicit]
  rfl

theorem sealTag_some_iff (t : UDFTag) (w b out : List Nat) :
    sealTag t w b = some out ↔ t.packOK w ∧ out = t.recBytes w ++ b := by
  unfold sealTag UDFTag.record
  split
  case isTrue h =>
    simp only [Option.map_some', Option.some.injEq]
    exact ⟨fun he => ⟨h, he.symm⟩, fun hc => hc.2.symm⟩
  case isFalse h =>
    simp only [Option.map_none', reduceCtorEq, false_iff, not_and]
    exact fun hc => absurd hc h

theorem sealTag_take16 (t : UDFTag) (w b : List Nat) :
    (t.recBytes w ++ b).take 16 = t.recBytes w := by
  conv_lhs => rw [show (16 : Nat) = (t.recBytes w).length from (UDFTag.recBytes_length t w).symm]
  exact List.take_left _ _

theorem sealTag_drop16 (t : UDFTag) (w b : List Nat) :
    (t.recBytes w ++ b).drop 16 = b := by
  conv_lhs => rw [show (16 : Nat) = (t.recBytes w).length from (UDFTag.recBytes_length t w).symm]
  exact List.drop_left _ _

theorem byteAt_recBytes_append (t : UDFTag) (w b : List Nat) (i : Nat) (h : i < 16) :
    byteAt (t.recBytes w ++ b) i = byteAt (t.recBytes w) i :=
  byteAt_append_left _ _ i (by rw [UDFTag.recBytes_length]; omega)

theorem read16_seal_crc (t : UDFTag) (w b : List Nat) :
    read16 (t.recBytes w ++ b) 8 = crc_ccitt w := by
  unfold read16
  rw [byteAt_recBytes_append t w b 8 (by omega), byteAt_recBytes_append t w b 9 (by omega)]
  have h8 : byteAt (t.recBytes w) 8 = crc_ccitt w % 256 := by rw [UDFTag.recBytes_explicit]; rfl
  have h9 : byteAt (t.recBytes w) 9 = crc_ccitt w / 256 % 256 := by
    rw [UDFTag.recBytes_explicit]; rfl
  have hlt := crc_ccitt_lt w
  rw [h8, h9]
  omega

theorem read16_seal_crclen (t : UDFTag) (w b : List Nat) (h : w.length < 65536) :
    read16 (t.recBytes w ++ b) 10 = w.length := by
  unfold read16
  rw [byteAt_recBytes_append t w b 10 (by omega), byteAt_recBytes_append t w b 11 (by omega)]
  have h10 : byteAt (t.recBytes w) 10 = w.length % 256 := by rw [UDFTag.recBytes_explicit]; rfl
  have h11 : byteAt (t.recBytes w) 11 = w.length / 256 % 256 := by
    rw [UDFTag.recBytes_explicit]; rfl
  rw [h10, h11]
  omega

theorem read32_seal_loc (t : UDFTag) (w b : List Nat) (h : t.tag_location < 4294967296) :
    read32 (t.recBytes w ++ b) 12 = t.tag_location := by
  unfold read32
  rw [byteAt_recBytes_append t w b 12 (by omega), byteAt_recBytes_append t w b 13 (by omega),
      byteAt_recBytes_append t w b 14 (by omega), byteAt_recBytes_append t w b 15 (by omega)]
  have h12 : byteAt (t.recBytes w) 12 = t.tag_location % 256 := by
    rw [UDFTag.recBytes_explicit]; rfl
  have h13 : byteAt (t.recBytes w) 13 = t.tag_location / 256 % 256 := by
    rw [UDFTag.recBytes_explicit]; rfl
  have h14 : byteAt (t.recBytes w) 14 = t.tag_location / 65536 % 256 := by
    rw [UDFTag.recBytes_explicit]; rfl
  have h15 : byteAt (t.recBytes w) 15 = t.tag_location / 16777216 % 256 := by
    rw [UDFTag.recBytes_explicit]; rfl
  rw [h12, h13, h14, h15]
  omega

theorem csum_seal (t : UDFTag) (w b : List Nat) :
    (byteSum ((t.recBytes w ++ b).take 16) - byteAt (t.recBytes w ++ b) 4) % 256 =
      byteAt (t.recBytes w ++ b) 4 := by
  rw [sealTag_take16, byteAt_recBytes_append t w b 4 (by omega)]
  rw [UDFTag.recBytes_explicit, UDFTag.csum_rec0]
  unfold byteSum byteAt
  simp only [List.foldl_cons, List.foldl_nil]
  have hd : (([t.tag_ident % 256, t.tag_ident / 256 % 256, t.desc_version % 256,
       t.desc_version / 256 % 256,
       (t.tag_ident % 256 + t.tag_ident / 256 % 256 + t.desc_version % 256 +
        t.desc_version / 256 % 256 + t.tag_serial_number % 256 +
        t.tag_serial_number / 256 % 256 + crc_ccitt w % 256 + crc_ccitt w / 256 % 256 +
        w.length % 256 + w.length / 256 % 256 + t.tag_location % 256 +
        t.tag_location / 256 % 256 + t.tag_location / 65536 % 256 +
        t.tag_location / 16777216 % 256) % 256, 0,
       t.tag_serial_number % 256, t.tag_serial_number / 256 % 256,
       crc_ccitt w % 256, crc_ccitt w / 256 % 256, w.length % 256, w.length / 256 % 256,
       t.tag_location % 256, t.tag_location / 256 % 256, t.tag_location / 65536 % 256,
       t.tag_location / 16777216 % 256] : List Nat).drop 4).headD 0 =
      (t.tag_ident % 256 + t.tag_ident / 256 % 256 + t.desc_version % 256 +
       t.desc_version / 256 % 256 + t.tag_serial_number % 256 +
       t.tag_serial_number / 256 % 256 + crc_ccitt w % 256 + crc_ccitt w / 256 % 256 +
       w.length % 256 + w.length / 256 % 256 + t.tag_location % 256 +
       t.tag_location / 256 % 256 + t.tag_location / 65536 % 256 +
       t.tag_location / 16777216 % 256) % 256 := rfl
  rw [hd]
  omega

theorem optBind_eq_some {α β : Type} (x : Option α) (f : α → Option β) (b : β) :
    (x >>= f) = some b ↔ ∃ a, x = some a ∧ f a = some b := by
  cases x <;> simp

theorem packBytes_length (n : Nat) (s : List Nat) : (packBytes n s).length = n := by
  unfold packBytes
  simp only [List.length_append, List.length_take, List.length_replicate]
  omega

theorem pack16_length (x : Nat) : (pack16 x).length = 2 := rfl

theorem pack32_length (x : Nat) : (pack32 x).length = 4 := rfl

theorem pack64_length (x : Nat) : (pack64 x).length = 8 := rfl

theorem readADs_length (data : List Nat) :
    ∀ (n : Nat) (offset : Nat) (l : List (Nat × Nat)),
      readADs data offset n = some l → l.length = n := by
  intro n
  induction n with
  | zero =>
    intro offset l h
    simp only [readADs, Option.some.injEq] at h
    simp [← h]
  | succ k ih =>
    intro offset l h
    unfold readADs at h
    split at h
    · cases hr : readADs data (offset + 8) k with
      | none => rw [hr] at h; exact Option.noConfusion h
      | some rest =>
        rw [hr] at h
        simp only [Option.some.injEq] at h
        subst h
        simp [ih (offset + 8) rest hr]
    · exact Option.noConfusion h

/-!
Parse inversion lemmas for the descriptors.
-/

theorem anchor_parse_inv (data : List Nat) (extent : Nat) (st : UDFAnchorVolumeStructure)
    (hp : UDFAnchorVolumeStructure.parse data extent = some st) :
    32 ≤ data.length ∧
      UDFTag.parse (data.take 16) (extent : Int) (data.drop 16) = some st.udf_tag ∧
      st.udf_tag.tag_ident = 2 ∧
      st = ⟨extent, none, read32 data 16, read32 data 20, read32 data 24, read32 data 28,
            st.udf_tag⟩ := by
  unfold UDFAnchorVolumeStructure.parse at hp
  repeat' split at hp
  all_goals try exact Option.noConfusion hp
  simp only [Option.some.injEq] at hp
  subst hp
  refine ⟨by assumption, by assumption, by assumption, rfl⟩

theorem lvid_parse_inv (data : List Nat) (extent : Nat)
    (st : UDFLogicalVolumeIntegrityDescriptor)
    (hp : UDFLogicalVolumeIntegrityDescriptor.parse data extent = some st) :
    512 ≤ data.length ∧
      UDFTag.parse (data.take 16) (extent : Int) ((data.drop 16).take 118) =
        some st.desc_tag ∧
      st.orig_extent_loc = extent ∧ st.new_extent_loc = none := by
  unfold UDFLogicalVolumeIntegrityDescriptor.parse at hp
  repeat' split at hp
  all_goals try exact Option.noConfusion hp
  simp only [Option.some.injEq] at hp
  subst hp
  refine ⟨by assumption, by assumption, rfl, rfl⟩

theorem term_parse_inv (data : List Nat) (extent start_extent : Nat)
    (st : UDFTerminatingDescriptor)
    (hp : UDFTerminatingDescriptor.parse data extent start_extent = some st) :
    st.orig_extent_loc = extent ∧ st.new_extent_loc = none := by
  unfold UDFTerminatingDescriptor.parse at hp
  repeat' split at hp
  all_goals try exact Option.noConfusion hp
  simp only [Option.some.injEq] at hp
  subst hp
  exact ⟨rfl, rfl⟩

theorem fe_parse_inv (data : List Nat) (extent start_extent : Nat) (st : UDFFileEntry)
    (hp : UDFFileEntry.parse data extent start_extent = some st) :
    176 ≤ data.length ∧
      UDFTag.parse (data.take 16) ((extent : Int) - (start_extent : Int))
        ((data.drop 16).take 168) = some st.desc_tag ∧
      st.orig_extent_loc = extent ∧ st.new_extent_loc = none ∧
      st.len_alloc_descs = read32 data 172 ∧
      readADs data (176 + read32 data 168) (read32 data 172 / 8) = some st.alloc_descs := by
  unfold UDFFileEntry.parse at hp
  repeat' split at hp
  all_goals try exact Option.noConfusion hp
  simp only [Option.some.injEq] at hp
  subst hp
  refine ⟨by assumption, by assumption, rfl, rfl, rfl, by assumption⟩

theorem fid_parse_inv (data : List Nat) (extent start_extent : Nat)
    (st : UDFFileIdentifierDescriptor) (n : Nat)
    (hp : UDFFileIdentifierDescriptor.parse data extent start_extent = some (st, n)) :
    38 ≤ data.length ∧
      st.orig_extent_loc = extent ∧ st.new_extent_loc = none ∧
      st.len_fi = byteAt data 19 ∧ st.len_impl_use = read16 data 36 ∧
      n = 38 + read16 data 36 + byteAt data 19 +
        UDFFileIdentifierDescriptor.pad (38 + read16 data 36 + byteAt data 19) := by
  unfold UDFFileIdentifierDescriptor.parse at hp
  repeat' split at hp
  all_goals try exact Option.noConfusion hp
  simp only [Option.some.injEq, Prod.mk.injEq] at hp
  obtain ⟨hst, hn⟩ := hp
  subst hst
  subst hn
  refine ⟨by assumption, rfl, rfl, rfl, rfl, rfl⟩

theorem csum_prop_of_seal (t : UDFTag) (w b out : List Nat) (h : sealTag t w b = some out) :
    (byteSum (out.take 16) - byteAt out 4) % 256 = byteAt out 4 := by
  obtain ⟨-, rfl⟩ := (sealTag_some_iff t w b out).mp h
  exact csum_seal t w b

set_option maxRecDepth 400000

/-!
The claim theorems.
-/

/-- C2 counterexample: the table generator `_initial` of the source performs
no 16-bit masking, so the table entry at index 1 is 0x11021, not the 0x1021
stated by the claim. -/
theorem c2_counterexample : _tab.getD 1 0 = 0x11021 ∧ _tab.getD 1 0 ≠ 0x1021 := by
  decide

/-- C2 (amended): the CRC-CCITT table generator, applied to the first ten
indices 0..9, produces entries that are equal to 0x0000, 0x1021, 0x2042,
0x3063, 0x4084, 0x50A5, 0x60C6, 0x70E7, 0x8108, 0x9129 only after reduction
modulo 2^16; the raw entries can carry the extra high bits of the 17-bit
polynomial, which `_update_crc` masks away. -/
theorem c2_crc_table_amended :
    (List.range 10).map (fun i => _tab.getD i 0 % 65536) =
      [0x0000, 0x1021, 0x2042, 0x3063, 0x4084, 0x50A5, 0x60C6, 0x70E7, 0x8108, 0x9129] := by
  decide

/-- C3: for every descriptor emitted by `record()` (the tag itself and every
descriptor type embedded here), the sum of its 16 tag bytes minus the byte
at offset 4, taken modulo 256, equals the byte at offset 4 (the checksum
field). -/
theorem c3_tag_checksum :
    (∀ (t : UDFTag) (cb out : List Nat), t.record cb = some out →
        (byteSum (out.take 16) - byteAt out 4) % 256 = byteAt out 4) ∧
    (∀ (st : UDFAnchorVolumeStructure) (out : List Nat), st.record = some out →
        (byteSum (out.take 16) - byteAt out 4) % 256 = byteAt out 4) ∧
    (∀ (st : UDFPrimaryVolumeDescriptor) (out : List Nat), st.record = some out →
        (byteSum (out.take 16) - byteAt out 4) % 256 = byteAt out 4) ∧
    (∀ (st : UDFLogicalVolumeIntegrityDescriptor) (out : List Nat), st.record = some out →
        (byteSum (out.take 16) - byteAt out 4) % 256 = byteAt out 4) ∧
    (∀ (st : UDFTerminatingDescriptor) (out : List Nat), st.record = some out →
        (byteSum (out.take 16) - byteAt out 4) % 256 = byteAt out 4) ∧
    (∀ (st : UDFFileEntry) (out : List Nat), st.record = some out →
        (byteSum (out.take 16) - byteAt out 4) % 256 = byteAt out 4) ∧
    (∀ (st : UDFFileIdentifierDescriptor) (out : List Nat), st.record = some out →
        (byteSum (out.take 16) - byteAt out 4) % 256 = byteAt out 4) := by
  refine ⟨?_, ?_, ?_, ?_, ?_, ?_, ?_⟩
  · intro t cb out h
    obtain ⟨-, rfl⟩ := (UDFTag.record_some_iff t cb _).mp h
    have h2 := csum_seal t cb []
    simpa using h2
  · intro st out h
    unfold UDFAnchorVolumeStructure.record at h
    split at h
    · exact csum_prop_of_seal _ _ _ _ h
    · exact Option.noConfusion h
  · intro st out h
    unfold UDFPrimaryVolumeDescriptor.record at h
    rw [optBind_eq_some] at h
    obtain ⟨b, -, hs⟩ := h
    exact csum_prop_of_seal _ _ _ _ hs
  · intro st out h
    unfold UDFLogicalVolumeIntegrityDescriptor.record at h
    rw [optBind_eq_some] at h
    obtain ⟨b, -, hs⟩ := h
    exact csum_prop_of_seal _ _ _ _ hs
  · intro st out h
    unfold UDFTerminatingDescriptor.record at h
    exact csum_prop_of_seal _ _ _ _ h
  · intro st out h
    unfold UDFFileEntry.record at h
    rw [optBind_eq_some] at h
    obtain ⟨b, -, hs⟩ := h
    exact csum_prop_of_seal _ _ _ _ hs
  · intro st out h
    unfold UDFFileIdentifierDescriptor.record at h
    rw [optBind_eq_some] at h
    obtain ⟨icbr, -, hs⟩ := h
    split at hs
    · exact csum_prop_of_seal _ _ _ _ hs
    · exact Option.noConfusion hs

/-- C3 witness: the checksum property evaluated on a concrete emitted tag. -/
theorem c3_witness :
    UDFTag.record ⟨2, 2, 0, 0⟩ [] = some [2, 0, 2, 0, 4, 0, 0, 0, 0, 0, 0, 0, 0, 0, 0, 0] ∧
      (byteSum (([2, 0, 2, 0, 4, 0, 0, 0, 0, 0, 0, 0, 0, 0, 0, 0] : List Nat).take 16) -
          byteAt [2, 0, 2, 0, 4, 0, 0, 0, 0, 0, 0, 0, 0, 0, 0, 0] 4) % 256 =
        byteAt [2, 0, 2, 0, 4, 0, 0, 0, 0, 0, 0, 0, 0, 0, 0, 0] 4 :=
  ⟨by decide, c3_tag_checksum.1 ⟨2, 2, 0, 0⟩ [] _ (by decide)⟩

/-- C9: `UDFTag` retains neither `desc_crc` nor `desc_crc_length` from
`parse` (they are not among its stored fields); `record(crc_bytes)` always
writes `desc_crc = crc_ccitt(crc_bytes)` and
`desc_crc_length = len(crc_bytes)` into bytes 8..9 and 10..11 of the
emitted tag, so a re-emitted descriptor carries the CRC length of the body
window supplied at emission. -/
theorem c9_tag_record_fresh_crc (t : UDFTag) (cb out : List Nat)
    (h : t.record cb = some out) :
    read16 out 8 = crc_ccitt cb ∧ read16 out 10 = cb.length := by
  obtain ⟨hOK, rfl⟩ := (UDFTag.record_some_iff t cb _).mp h
  constructor
  · have h2 := read16_seal_crc t cb []
    simpa using h2
  · have h2 := read16_seal_crclen t cb [] hOK.2.2.2.1
    simpa using h2

/-- C9 witness: the freshly computed CRC fields on a concrete emitted tag. -/
theorem c9_witness :
    UDFTag.record ⟨2, 2, 0, 0⟩ [] = some [2, 0, 2, 0, 4, 0, 0, 0, 0, 0, 0, 0, 0, 0, 0, 0] ∧
      read16 [2, 0, 2, 0, 4, 0, 0, 0, 0, 0, 0, 0, 0, 0, 0, 0] 8 = crc_ccitt [] ∧
      read16 [2, 0, 2, 0, 4, 0, 0, 0, 0, 0, 0, 0, 0, 0, 0, 0] 10 = ([] : List Nat).length :=
  ⟨by decide, (c9_tag_record_fresh_crc ⟨2, 2, 0, 0⟩ [] _ (by decide)).1,
   (c9_tag_record_fresh_crc ⟨2, 2, 0, 0⟩ [] _ (by decide)).2⟩

/-- C10: for every embedded descriptor type, a successful
`parse(data, extent[, start_extent])` sets `new_extent_loc` to `none` and
`orig_extent_loc` to the extent argument, so `extent_location()` returns the
absolute extent argument, also for the partition-relative descriptors whose
tag location was validated against `extent - start_extent`. -/
theorem c10_parse_extent_location :
    (∀ (data : List Nat) (extent : Nat) (st : UDFAnchorVolumeStructure),
        UDFAnchorVolumeStructure.parse data extent = some st →
        st.new_extent_loc = none ∧ st.orig_extent_loc = extent ∧
          st.extent_location = extent) ∧
    (∀ (data : List Nat) (extent : Nat) (st : UDFLogicalVolumeIntegrityDescriptor),
        UDFLogicalVolumeIntegrityDescriptor.parse data extent = some st →
        st.new_extent_loc = none ∧ st.orig_extent_loc = extent ∧
          st.extent_location = extent) ∧
    (∀ (data : List Nat) (extent start_extent : Nat) (st : UDFTerminatingDescriptor),
        UDFTerminatingDescriptor.parse data extent start_extent = some st →
        st.new_extent_loc = none ∧ st.orig_extent_loc = extent ∧
          st.extent_location = extent) ∧
    (∀ (data : List Nat) (extent start_extent : Nat) (st : UDFFileEntry),
        UDFFileEntry.parse data extent start_extent = some st →
        st.new_extent_loc = none ∧ st.orig_extent_loc = extent ∧
          st.extent_location = extent) ∧
    (∀ (data : List Nat) (extent start_extent : Nat)
        (p : UDFFileIdentifierDescriptor × Nat),
        UDFFileIdentifierDescriptor.parse data extent start_extent = some p →
        p.1.new_extent_loc = none ∧ p.1.orig_extent_loc = extent ∧
          p.1.extent_location = extent) := by
  refine ⟨?_, ?_, ?_, ?_, ?_⟩
  · intro data extent st hp
    obtain ⟨-, -, -, hst⟩ := anchor_parse_inv data extent st hp
    rw [hst]
    exact ⟨rfl, rfl, rfl⟩
  · intro data extent st hp
    obtain ⟨-, -, ho, hn⟩ := lvid_parse_inv data extent st hp
    refine ⟨hn, ho, ?_⟩
    unfold UDFLogicalVolumeIntegrityDescriptor.extent_location
    rw [hn, ho]
    rfl
  · intro data extent start_extent st hp
    obtain ⟨ho, hn⟩ := term_parse_inv data extent start_extent st hp
    refine ⟨hn, ho, ?_⟩
    unfold UDFTerminatingDescriptor.extent_location
    rw [hn, ho]
    rfl
  · intro data extent start_extent st hp
    obtain ⟨-, -, ho, hn, -, -⟩ := fe_parse_inv data extent start_extent st hp
    refine ⟨hn, ho, ?_⟩
    unfold UDFFileEntry.extent_location
    rw [hn, ho]
    rfl
  · intro data extent start_extent p hp
    obtain ⟨-, ho, hn, -, -, -⟩ := fid_parse_inv data extent start_extent p.1 p.2
      (by rw [← hp])
    refine ⟨hn, ho, ?_⟩
    unfold UDFFileIdentifierDescriptor.extent_location
    rw [hn, ho]
    rfl

/-- C10 witness: the extent-location property evaluated on the five concrete
parse vectors. -/
theorem c10_witness :
    UDFAnchorVolumeStructure.parse anchorBufShortCrc 0 = some anchorSt0 ∧
      anchorSt0.extent_location = 0 ∧
    UDFLogicalVolumeIntegrityDescriptor.parse lvidBuf 0 = some lvidStP ∧
      lvidStP.extent_location = 0 ∧
    UDFTerminatingDescriptor.parse termBuf 7 3 = some termStP ∧
      termStP.extent_location = 7 ∧
    UDFFileEntry.parse feBuf 0 0 = some feStP ∧ feStP.extent_location = 0 ∧
    UDFFileIdentifierDescriptor.parse fidBuf 0 0 = some (fidStP, 44) ∧
      fidStP.extent_location = 0 :=
  ⟨by decide, (c10_parse_extent_location.1 anchorBufShortCrc 0 anchorSt0 (by decide)).2.2,
   by decide, (c10_parse_extent_location.2.1 lvidBuf 0 lvidStP (by decide)).2.2,
   by decide, (c10_parse_extent_location.2.2.1 termBuf 7 3 termStP (by decide)).2.2,
   by decide, (c10_parse_extent_location.2.2.2.1 feBuf 0 0 feStP (by decide)).2.2,
   by decide,
   (c10_parse_extent_location.2.2.2.2 fidBuf 0 0 (fidStP, 44) (by decide)).2.2⟩

/-- C5 counterexample: a File Identifier Descriptor with `len_fi = 5` and
`len_impl_use = 0` parses successfully, but `parse` returns 44 (43 padded up
to the next multiple of 4), not the 48 stated by the claim. -/
theorem c5_counterexample :
    UDFFileIdentifierDescriptor.parse fidBuf 0 0 = some (fidStP, 44) ∧
      fidStP.len_fi = 5 ∧ fidStP.len_impl_use = 0 ∧ (44 : Nat) ≠ 48 :=
  ⟨by decide, by decide, by decide, by decide⟩

/-- C5 (amended): for every File Identifier Descriptor with `len_fi = 5` and
`len_impl_use = 0` that parses successfully,
`UDFFileIdentifierDescriptor.parse` returns 44 bytes consumed
(38 + 0 + 5 = 43, padded to 44). -/
theorem c5_fid_consumed_amended (data : List Nat) (extent start_extent : Nat)
    (st : UDFFileIdentifierDescriptor) (n : Nat)
    (hp : UDFFileIdentifierDescriptor.parse data extent start_extent = some (st, n))
    (hfi : st.len_fi = 5) (hiu : st.len_impl_use = 0) : n = 44 := by
  obtain ⟨-, -, -, hf, hi, hn⟩ := fid_parse_inv data extent start_extent st n hp
  rw [hfi] at hf
  rw [hiu] at hi
  rw [← hf, ← hi] at hn
  unfold UDFFileIdentifierDescriptor.pad at hn
  omega

/-- C5 witness: the amended consumed-byte count on the concrete FID vector. -/
theorem c5_witness :
    UDFFileIdentifierDescriptor.parse fidBuf 0 0 = some (fidStP, 44) ∧ (44 : Nat) = 44 :=
  ⟨by decide, c5_fid_consumed_amended fidBuf 0 0 fidStP 44 (by decide) (by decide) (by decide)⟩

/-- C6: for every File Identifier Descriptor that parses successfully, the
value returned by `parse` is a multiple of 4 and equals
`38 + len_impl_use + len_fi` rounded up to the next multiple of 4. -/
theorem c6_fid_padding (data : List Nat) (extent start_extent : Nat)
    (st : UDFFileIdentifierDescriptor) (n : Nat)
    (hp : UDFFileIdentifierDescriptor.parse data extent start_extent = some (st, n)) :
    n % 4 = 0 ∧ n = 4 * ((38 + st.len_impl_use + st.len_fi + 3) / 4) := by
  obtain ⟨-, -, -, hf, hi, hn⟩ := fid_parse_inv data extent start_extent st n hp
  rw [← hf, ← hi] at hn
  unfold UDFFileIdentifierDescriptor.pad at hn
  omega

/-- C6 witness: the padding property on the concrete FID vector. -/
theorem c6_witness :
    UDFFileIdentifierDescriptor.parse fidBuf 0 0 = some (fidStP, 44) ∧
      44 % 4 = 0 ∧ (44 : Nat) = 4 * ((38 + fidStP.len_impl_use + fidStP.len_fi + 3) / 4) :=
  ⟨by decide, (c6_fid_padding fidBuf 0 0 fidStP 44 (by decide)).1,
   (c6_fid_padding fidBuf 0 0 fidStP 44 (by decide)).2⟩

/-- C7 counterexample: a File Entry whose `len_alloc_descs` is 4 (not a
multiple of 8) parses successfully, so `UDFFileEntry.parse` does not reject
such input and parsed File Entries need not satisfy
`len_alloc_descs % 8 = 0`. -/
theorem c7_counterexample :
    UDFFileEntry.parse feBuf 0 0 = some feStP ∧ feStP.len_alloc_descs = 4 ∧
      ¬(4 % 8 = 0) :=
  ⟨by decide, by decide, by decide⟩

/-- C7 (amended): `UDFFileEntry.parse` performs no multiple-of-8 check on
`len_alloc_descs`; it reads exactly `len_alloc_descs / 8` (integer floor
division, the Python 2 semantics of the source's `/`) eight-byte
`(length, position)` short allocation descriptors. -/
theorem c7_alloc_descs_amended (data : List Nat) (extent start_extent : Nat)
    (st : UDFFileEntry) (hp : UDFFileEntry.parse data extent start_extent = some st) :
    st.alloc_descs.length = st.len_alloc_descs / 8 := by
  obtain ⟨-, -, -, -, hlen, hads⟩ := fe_parse_inv data extent start_extent st hp
  rw [hlen]
  exact readADs_length data (read32 data 172 / 8) (176 + read32 data 168) st.alloc_descs hads

/-- C7 witness: the floor-division descriptor count on the concrete File
Entry vector. -/
theorem c7_witness :
    UDFFileEntry.parse feBuf 0 0 = some feStP ∧
      feStP.alloc_descs.length = feStP.len_alloc_descs / 8 :=
  ⟨by decide, c7_alloc_descs_amended feBuf 0 0 feStP (by decide)⟩

/-- C8 counterexample: `UDFFileEntry.set_location` takes the emitted tag
location as a separate argument; after `set_location(5, 7)` the emitted
tag's `tag_location` field is 7 while `extent_location()` returns 5, so the
claimed agreement fails for the File Entry. -/
theorem c8_counterexample :
    (feSt.set_location 5 7).extent_location = 5 ∧
      ((feSt.set_location 5 7).record).map (fun out => read32 out 12) = some 7 ∧
      (7 : Nat) ≠ 5 :=
  ⟨by decide, by decide, by decide⟩

/-- C8 (amended): after relocation followed by `record()`, the emitted tag's
`tag_location` field (u32 at offset 12) and `extent_location()` behave as
follows: for the Primary Volume Descriptor, `set_location(N)` makes both
equal `N`; for the Terminating Descriptor, `set_location(N)` with the
`tag_location` argument defaulted makes both equal `N`; for the File Entry,
`set_location(N, T)` emits tag location `T` while `extent_location()`
returns `N`. -/
theorem c8_relocation_amended :
    (∀ (st : UDFPrimaryVolumeDescriptor) (N : Nat) (out : List Nat),
        (st.set_location N).record = some out →
        read32 out 12 = N ∧ (st.set_location N).extent_location = N) ∧
    (∀ (st : UDFTerminatingDescriptor) (N : Nat) (out : List Nat),
        (st.set_location N none).record = some out →
        read32 out 12 = N ∧ (st.set_location N none).extent_location = N) ∧
    (∀ (st : UDFFileEntry) (N T : Nat) (out : List Nat),
        (st.set_location N T).record = some out →
        read32 out 12 = T ∧ (st.set_location N T).extent_location = N) := by
  refine ⟨?_, ?_, ?_⟩
  · intro st N out h
    refine ⟨?_, rfl⟩
    unfold UDFPrimaryVolumeDescriptor.record at h
    rw [optBind_eq_some] at h
    obtain ⟨b, -, hs⟩ := h
    obtain ⟨hOK, rfl⟩ := (sealTag_some_iff _ _ _ _).mp hs
    exact read32_seal_loc _ b b hOK.2.2.2.2
  · intro st N out h
    refine ⟨?_, rfl⟩
    unfold UDFTerminatingDescriptor.record at h
    obtain ⟨hOK, rfl⟩ := (sealTag_some_iff _ _ _ _).mp h
    exact read32_seal_loc _ _ _ hOK.2.2.2.2
  · intro st N T out h
    refine ⟨?_, rfl⟩
    unfold UDFFileEntry.record at h
    rw [optBind_eq_some] at h
    obtain ⟨b, -, hs⟩ := h
    obtain ⟨hOK, rfl⟩ := (sealTag_some_iff _ _ _ _).mp hs
    exact read32_seal_loc _ b b hOK.2.2.2.2

/-- C8 witness: the relocation behaviour on concrete Primary Volume
Descriptor, Terminating Descriptor and File Entry states. -/
theorem c8_witness :
    ((pvdSt.set_location 3).record).map (fun out => read32 out 12) = some 3 ∧
      (pvdSt.set_location 3).extent_location = 3 ∧
      ((termSt.set_location 9 none).record).map (fun out => read32 out 12) = some 9 ∧
      (termSt.set_location 9 none).extent_location = 9 ∧
      ((feSt.set_location 5 7).record).map (fun out => read32 out 12) = some 7 ∧
      (feSt.set_location 5 7).extent_location = 5 := by
  refine ⟨?_, ?_, ?_, ?_, ?_, ?_⟩
  · cases hx : (pvdSt.set_location 3).record with
    | none => exact absurd hx (by decide)
    | some out =>
      have h := (c8_relocation_amended.1 pvdSt 3 out hx).1
      simp [h]
  · cases hx : (pvdSt.set_location 3).record with
    | none => exact absurd hx (by decide)
    | some out => exact (c8_relocation_amended.1 pvdSt 3 out hx).2
  · cases hx : (termSt.set_location 9 none).record with
    | none => exact absurd hx (by decide)
    | some out =>
      have h := (c8_relocation_amended.2.1 termSt 9 out hx).1
      simp [h]
  · cases hx : (termSt.set_location 9 none).record with
    | none => exact absurd hx (by decide)
    | some out => exact (c8_relocation_amended.2.1 termSt 9 out hx).2
  · cases hx : (feSt.set_location 5 7).record with
    | none => exact absurd hx (by decide)
    | some out =>
      have h := (c8_relocation_amended.2.2 feSt 5 7 out hx).1
      simp [h]
  · cases hx : (feSt.set_location 5 7).record with
    | none => exact absurd hx (by decide)
    | some out => exact (c8_relocation_amended.2.2 feSt 5 7 out hx).2

theorem lvid_body_length (st : UDFLogicalVolumeIntegrityDescriptor) (b : List Nat)
    (h : st.body = some b) : b.length = 496 := by
  unfold UDFLogicalVolumeIntegrityDescriptor.body at h
  rw [optBind_eq_some] at h
  obtain ⟨tsr, -, h⟩ := h
  rw [optBind_eq_some] at h
  obtain ⟨lvhr, -, h⟩ := h
  rw [optBind_eq_some] at h
  obtain ⟨lvir, -, h⟩ := h
  split at h
  · simp only [Option.pure_def, Option.some.injEq] at h
    subst h
    simp only [List.length_append, packBytes_length, pack32_length]
  · exact Option.noConfusion h

/-- C4 counterexample: a Logical Volume Integrity Descriptor whose
`desc_crc_length` field is 0 parses successfully even though the CRC over
the first 118 body bytes does not equal the stored `desc_crc`, so parse
does not verify the CRC over exactly the first 118 body bytes. -/
theorem c4_counterexample :
    UDFLogicalVolumeIntegrityDescriptor.parse lvidBuf 0 = some lvidStP ∧
      crc_ccitt ((lvidBuf.drop 16).take 118) ≠ read16 lvidBuf 8 :=
  ⟨by decide, by decide⟩

/-- C4 (amended): for the Logical Volume Integrity Descriptor, `parse`
supplies exactly the first 118 body bytes as the CRC buffer, requiring
`desc_crc_length ≤ 118` and verifying the CRC over the first
`desc_crc_length` of them, while `record()` computes `desc_crc` and
`desc_crc_length` over exactly the first 118 body bytes; for the other
embedded tagged descriptors, `record()`'s CRC window is the whole body, and
`UDFFileEntry.parse` supplies only the first 168 body bytes, requiring
`desc_crc_length ≤ 168`. -/
theorem c4_crc_window_amended :
    (∀ (data : List Nat) (extent : Nat) (st : UDFLogicalVolumeIntegrityDescriptor),
        UDFLogicalVolumeIntegrityDescriptor.parse data extent = some st →
        read16 data 10 ≤ 118 ∧
          read16 data 8 = crc_ccitt ((data.drop 16).take (read16 data 10))) ∧
    (∀ (st : UDFLogicalVolumeIntegrityDescriptor) (out : List Nat), st.record = some out →
        read16 out 10 = 118 ∧ read16 out 8 = crc_ccitt ((out.drop 16).take 118)) ∧
    (∀ (st : UDFAnchorVolumeStructure) (out : List Nat), st.record = some out →
        read16 out 10 = (out.drop 16).length ∧ read16 out 8 = crc_ccitt (out.drop 16)) ∧
    (∀ (st : UDFFileEntry) (out : List Nat), st.record = some out →
        read16 out 10 = (out.drop 16).length ∧ read16 out 8 = crc_ccitt (out.drop 16)) ∧
    (∀ (st : UDFTerminatingDescriptor) (out : List Nat), st.record = some out →
        read16 out 10 = (out.drop 16).length ∧ read16 out 8 = crc_ccitt (out.drop 16)) ∧
    (∀ (st : UDFPrimaryVolumeDescriptor) (out : List Nat), st.record = some out →
        read16 out 10 = (out.drop 16).length ∧ read16 out 8 = crc_ccitt (out.drop 16)) ∧
    (∀ (st : UDFFileIdentifierDescriptor) (out : List Nat), st.record = some out →
        read16 out 10 = (out.drop 16).length ∧ read16 out 8 = crc_ccitt (out.drop 16)) ∧
    (∀ (data : List Nat) (extent start_extent : Nat) (st : UDFFileEntry),
        UDFFileEntry.parse data extent start_extent = some st →
        read16 data 10 ≤ 168) := by
  refine ⟨?_, ?_, ?_, ?_, ?_, ?_, ?_, ?_⟩
  · intro data extent st hp
    obtain ⟨hlen, htag, -, -⟩ := lvid_parse_inv data extent st hp
    obtain ⟨⟨-, -, -, -, -, hle, hcrc⟩, -⟩ := (UDFTag.parse_some_iff _ _ _ _).mp htag
    rw [read16_take data 16 10 (by omega), read16_take data 16 8 (by omega)] at *
    have hwin : ((data.drop 16).take 118).length ≤ 118 := by
      simp [List.length_take]
    have hle2 : read16 data 10 ≤ 118 := le_trans hle hwin
    refine ⟨hle2, ?_⟩
    rw [hcrc, List.take_take, Nat.min_eq_left hle2]
  · intro st out h
    unfold UDFLogicalVolumeIntegrityDescriptor.record at h
    rw [optBind_eq_some] at h
    obtain ⟨b, hb, hs⟩ := h
    have hblen := lvid_body_length st b hb
    obtain ⟨hOK, rfl⟩ := (sealTag_some_iff _ _ _ _).mp hs
    constructor
    · rw [read16_seal_crclen _ _ _ hOK.2.2.2.1]
      simp [List.length_take, hblen]
    · rw [read16_seal_crc, sealTag_drop16]
  · intro st out h
    unfold UDFAnchorVolumeStructure.record at h
    split at h
    · obtain ⟨hOK, rfl⟩ := (sealTag_some_iff _ _ _ _).mp h
      rw [sealTag_drop16]
      exact ⟨read16_seal_crclen _ _ _ hOK.2.2.2.1, read16_seal_crc _ _ _⟩
    · exact Option.noConfusion h
  · intro st out h
    unfold UDFFileEntry.record at h
    rw [optBind_eq_some] at h
    obtain ⟨b, -, hs⟩ := h
    obtain ⟨hOK, rfl⟩ := (sealTag_some_iff _ _ _ _).mp hs
    rw [sealTag_drop16]
    exact ⟨read16_seal_crclen _ _ _ hOK.2.2.2.1, read16_seal_crc _ _ _⟩
  · intro st out h
    unfold UDFTerminatingDescriptor.record at h
    obtain ⟨hOK, rfl⟩ := (sealTag_some_iff _ _ _ _).mp h
    rw [sealTag_drop16]
    exact ⟨read16_seal_crclen _ _ _ hOK.2.2.2.1, read16_seal_crc _ _ _⟩
  · intro st out h
    unfold UDFPrimaryVolumeDescriptor.record at h
    rw [optBind_eq_some] at h
    obtain ⟨b, -, hs⟩ := h
    obtain ⟨hOK, rfl⟩ := (sealTag_some_iff _ _ _ _).mp hs
    rw [sealTag_drop16]
    exact ⟨read16_seal_crclen _ _ _ hOK.2.2.2.1, read16_seal_crc _ _ _⟩
  · intro st out h
    unfold UDFFileIdentifierDescriptor.record at h
    rw [optBind_eq_some] at h
    obtain ⟨icbr, -, hs⟩ := h
    split at hs
    · obtain ⟨hOK, rfl⟩ := (sealTag_some_iff _ _ _ _).mp hs
      rw [sealTag_drop16]
      exact ⟨read16_seal_crclen _ _ _ hOK.2.2.2.1, read16_seal_crc _ _ _⟩
    · exact Option.noConfusion hs
  · intro data extent start_extent st hp
    obtain ⟨hlen, htag, -, -, -, -⟩ := fe_parse_inv data extent start_extent st hp
    obtain ⟨⟨-, -, -, -, -, hle, -⟩, -⟩ := (UDFTag.parse_some_iff _ _ _ _).mp htag
    rw [read16_take data 16 10 (by omega)] at hle
    have hwin : ((data.drop 16).take 168).length ≤ 168 := by
      simp [List.length_take]
    exact le_trans hle hwin

/-- C4 witness: the CRC-window behaviour evaluated on the concrete Logical
Volume Integrity Descriptor, Anchor, File Entry, Terminating Descriptor,
Primary Volume Descriptor and File Identifier Descriptor vectors and
states. -/
theorem c4_witness :
    (read16 lvidBuf 10 ≤ 118 ∧
      read16 lvidBuf 8 = crc_ccitt ((lvidBuf.drop 16).take (read16 lvidBuf 10))) ∧
      (lvidSt.record).map (fun out => read16 out 10) = some 118 ∧
      (anchorSt0.record).map (fun out => read16 out 10) = some 496 ∧
      (feSt.record).map (fun out => read16 out 10) = some 160 ∧
      (termSt.record).map (fun out => read16 out 10) = some 496 ∧
      (pvdSt.record).map (fun out => read16 out 10) = some 496 ∧
      (fidStP.record).map (fun out => read16 out 10) = some 28 ∧
      read16 feBuf 10 ≤ 168 := by
  refine ⟨c4_crc_window_amended.1 lvidBuf 0 lvidStP (by decide), ?_, ?_, ?_, ?_, ?_, ?_,
          c4_crc_window_amended.2.2.2.2.2.2.2 feBuf 0 0 feStP (by decide)⟩
  · cases hx : lvidSt.record with
    | none => exact absurd hx (by decide)
    | some out =>
      have h := (c4_crc_window_amended.2.1 lvidSt out hx).1
      simp [h]
  · cases hx : anchorSt0.record with
    | none => exact absurd hx (by decide)
    | some out =>
      have h := (c4_crc_window_amended.2.2.1 anchorSt0 out hx).1
      have h2 : (anchorSt0.record).map (fun o => (o.drop 16).length) = some 496 := by decide
      rw [hx] at h2
      simp only [Option.map_some', Option.some.injEq] at h2
      simp [h, h2]
  · cases hx : feSt.record with
    | none => exact absurd hx (by decide)
    | some out =>
      have h := (c4_crc_window_amended.2.2.2.1 feSt out hx).1
      have h2 : (feSt.record).map (fun o => (o.drop 16).length) = some 160 := by decide
      rw [hx] at h2
      simp only [Option.map_some', Option.some.injEq] at h2
      simp [h, h2]
  · cases hx : termSt.record with
    | none => exact absurd hx (by decide)
    | some out =>
      have h := (c4_crc_window_amended.2.2.2.2.1 termSt out hx).1
      have h2 : (termSt.record).map (fun o => (o.drop 16).length) = some 496 := by decide
      rw [hx] at h2
      simp only [Option.map_some', Option.some.injEq] at h2
      simp [h, h2]
  · cases hx : pvdSt.record with
    | none => exact absurd hx (by decide)
    | some out =>
      have h := (c4_crc_window_amended.2.2.2.2.2.1 pvdSt out hx).1
      have h2 : (pvdSt.record).map (fun o => (o.drop 16).length) = some 496 := by decide
      rw [hx] at h2
      simp only [Option.map_some', Option.some.injEq] at h2
      simp [h, h2]
  · cases hx : fidStP.record with
    | none => exact absurd hx (by decide)
    | some out =>
      have h := (c4_crc_window_amended.2.2.2.2.2.2.1 fidStP out hx).1
      have h2 : (fidStP.record).map (fun o => (o.drop 16).length) = some 28 := by decide
      rw [hx] at h2
      simp only [Option.map_some', Option.some.injEq] at h2
      simp [h, h2]

theorem pack32_read32_at (l : List Nat) (o : Nat) (h : ∀ b ∈ l, b < 256) :
    pack32 (read32 l o) =
      [byteAt l o, byteAt l (o + 1), byteAt l (o + 2), byteAt l (o + 3)] := by
  have h0 := byteAt_lt l o h
  have h1 := byteAt_lt l (o + 1) h
  have h2 := byteAt_lt l (o + 2) h
  have h3 := byteAt_lt l (o + 3) h
  unfold pack32 read32
  simp only [List.cons.injEq, and_true]
  refine ⟨by omega, by omega, by omega, by omega⟩

theorem anchor_body_eq (B : List Nat) (hbytes : ∀ b ∈ B, b < 256) (hlen : B.length = 512)
    (hzero : B.drop 32 = List.replicate 480 0) :
    pack32 (read32 B 16) ++ pack32 (read32 B 20) ++ pack32 (read32 B 24) ++
      pack32 (read32 B 28) ++ List.replicate 480 0 = B.drop 16 := by
  rw [pack32_read32_at B 16 hbytes, pack32_read32_at B 20 hbytes,
      pack32_read32_at B 24 hbytes, pack32_read32_at B 28 hbytes]
  have hDeq : B.drop 16 =
      [byteAt B 16, byteAt B 17, byteAt B 18, byteAt B 19, byteAt B 20, byteAt B 21,
       byteAt B 22, byteAt B 23, byteAt B 24, byteAt B 25, byteAt B 26, byteAt B 27,
       byteAt B 28, byteAt B 29, byteAt B 30, byteAt B 31] ++ List.replicate 480 0 := by
    conv_lhs => rw [← List.take_append_drop 16 (B.drop 16)]
    have hdd : (B.drop 16).drop 16 = B.drop 32 := by
      rw [List.drop_drop]
    rw [hdd, hzero, take16_eq (B.drop 16) (by simp [List.length_drop]; omega)]
    norm_num [byteAt_drop]
  rw [hDeq]
  norm_num [List.append_assoc]

theorem anchor_tag_eq (B : List Nat) (hbytes : ∀ b ∈ B, b < 256) (hlen : B.length = 512)
    (hdcl : read16 B 10 = 496)
    (hres : byteAt B 5 = 0)
    (hcsum : _compute_csum (B.take 16) = byteAt (B.take 16) 4)
    (hcrcD : crc_ccitt (B.drop 16) = read16 B 8) :
    UDFTag.recBytes ⟨read16 B 0, read16 B 2, read16 B 6, read32 B 12⟩ (B.drop 16) =
      B.take 16 := by
  have hb : ∀ i, byteAt B i < 256 := fun i => byteAt_lt B i hbytes
  have hDlen : (B.drop 16).length = 496 := by simp [List.length_drop, hlen]
  have hcsum2 : ((0 + byteAt B 0 + byteAt B 1 + byteAt B 2 + byteAt B 3 + byteAt B 4 +
      byteAt B 5 + byteAt B 6 + byteAt B 7 + byteAt B 8 + byteAt B 9 + byteAt B 10 +
      byteAt B 11 + byteAt B 12 + byteAt B 13 + byteAt B 14 + byteAt B 15) -
        byteAt B 4) % 256 = byteAt B 4 := by
    have h16 := take16_eq B (by omega)
    rw [h16] at hcsum
    have hb4 : byteAt [byteAt B 0, byteAt B 1, byteAt B 2, byteAt B 3, byteAt B 4,
        byteAt B 5, byteAt B 6, byteAt B 7, byteAt B 8, byteAt B 9, byteAt B 10,
        byteAt B 11, byteAt B 12, byteAt B 13, byteAt B 14, byteAt B 15] 4 =
        byteAt B 4 := rfl
    unfold _compute_csum byteSum at hcsum
    rw [hb4] at hcsum
    simp only [List.foldl_cons, List.foldl_nil] at hcsum
    exact hcsum
  unfold read16 at hdcl
  simp only [Nat.reduceAdd] at hdcl
  have hd10 := hb 10
  have hd11 := hb 11
  rw [UDFTag.recBytes_explicit, UDFTag.csum_rec0, take16_eq B (by omega), hDlen, hcrcD]
  dsimp only
  unfold read16 read32
  simp only [Nat.reduceAdd]
  have e0 : (byteAt B 0 + 256 * byteAt B 1) % 256 = byteAt B 0 := by
    have := hb 0; have := hb 1; omega
  have e1 : (byteAt B 0 + 256 * byteAt B 1) / 256 % 256 = byteAt B 1 := by
    have := hb 0; have := hb 1; omega
  have e2 : (byteAt B 2 + 256 * byteAt B 3) % 256 = byteAt B 2 := by
    have := hb 2; have := hb 3; omega
  have e3 : (byteAt B 2 + 256 * byteAt B 3) / 256 % 256 = byteAt B 3 := by
    have := hb 2; have := hb 3; omega
  have e6 : (byteAt B 6 + 256 * byteAt B 7) % 256 = byteAt B 6 := by
    have := hb 6; have := hb 7; omega
  have e7 : (byteAt B 6 + 256 * byteAt B 7) / 256 % 256 = byteAt B 7 := by
    have := hb 6; have := hb 7; omega
  have e8 : (byteAt B 8 + 256 * byteAt B 9) % 256 = byteAt B 8 := by
    have := hb 8; have := hb 9; omega
  have e9 : (byteAt B 8 + 256 * byteAt B 9) / 256 % 256 = byteAt B 9 := by
    have := hb 8; have := hb 9; omega
  have l0 : (byteAt B 12 + 256 * byteAt B 13 + 65536 * byteAt B 14 +
      16777216 * byteAt B 15) % 256 = byteAt B 12 := by
    have := hb 12; have := hb 13; have := hb 14; have := hb 15; omega
  have l1 : (byteAt B 12 + 256 * byteAt B 13 + 65536 * byteAt B 14 +
      16777216 * byteAt B 15) / 256 % 256 = byteAt B 13 := by
    have := hb 12; have := hb 13; have := hb 14; have := hb 15; omega
  have l2 : (byteAt B 12 + 256 * byteAt B 13 + 65536 * byteAt B 14 +
      16777216 * byteAt B 15) / 65536 % 256 = byteAt B 14 := by
    have := hb 12; have := hb 13; have := hb 14; have := hb 15; omega
  have l3 : (byteAt B 12 + 256 * byteAt B 13 + 65536 * byteAt B 14 +
      16777216 * byteAt B 15) / 16777216 % 256 = byteAt B 15 := by
    have := hb 12; have := hb 13; have := hb 14; have := hb 15; omega
  rw [e0, e1, e2, e3, e6, e7, e8, e9, l0, l1, l2, l3]
  norm_num
  have h4 := hb 4
  have h5 := hb 5
  omega

/-- C1 counterexample: a 512-byte Anchor Volume Structure buffer whose
`desc_crc_length` field is 0 parses successfully, but `record()` emitted
immediately afterward rewrites `desc_crc_length` to 496 (and the checksum),
so the emitted bytes differ from the input. -/
theorem c1_counterexample :
    UDFAnchorVolumeStructure.parse anchorBufShortCrc 0 = some anchorSt0 ∧
      anchorSt0.record ≠ some anchorBufShortCrc :=
  ⟨by decide, by decide⟩

/-- C1 (amended): the parse/record round-trip holds for the canonical
encodings: for every Anchor Volume Structure byte buffer of length 512 whose
`desc_crc_length` field equals 496 and whose bytes after offset 32 are zero,
a successful parse at any extent followed immediately by `record()` returns
exactly the input buffer.  In general `record()` re-derives the checksum,
`desc_crc` and `desc_crc_length` fields and emits the canonical 512-byte
form, so byte equality can fail for other accepted inputs. -/
theorem c1_anchor_roundtrip_amended (B : List Nat) (E : Nat)
    (st : UDFAnchorVolumeStructure)
    (hbytes : ∀ b ∈ B, b < 256) (hlen : B.length = 512) (hdcl : read16 B 10 = 496)
    (hzero : B.drop 32 = List.replicate 480 0)
    (hp : UDFAnchorVolumeStructure.parse B E = some st) :
    st.record = some B := by
  obtain ⟨h32, htag, hident, hst⟩ := anchor_parse_inv B E st hp
  obtain ⟨⟨hlen16, hres, hcsum, hloc, hver, hle, hcrc⟩, htageq⟩ :=
    (UDFTag.parse_some_iff _ _ _ _).mp htag
  rw [byteAt_take B 16 5 (by omega)] at hres
  have hcrcD : crc_ccitt (B.drop 16) = read16 B 8 := by
    rw [read16_take B 16 8 (by omega), read16_take B 16 10 (by omega), hdcl] at hcrc
    rw [hcrc]
    congr 1
    exact (List.take_of_length_le (by simp [List.length_drop, hlen])).symm
  rw [read16_take B 16 0 (by omega), read16_take B 16 2 (by omega),
      read16_take B 16 6 (by omega), read32_take B 16 12 (by omega)] at htageq
  have hst2 : st = ⟨E, none, read32 B 16, read32 B 20, read32 B 24, read32 B 28,
      ⟨read16 B 0, read16 B 2, read16 B 6, read32 B 12⟩⟩ := by
    rw [hst, htageq]
  rw [hst2]
  unfold UDFAnchorVolumeStructure.record UDFAnchorVolumeStructure.body
  dsimp only
  rw [if_pos ⟨read32_lt B 16 hbytes, read32_lt B 20 hbytes, read32_lt B 24 hbytes,
      read32_lt B 28 hbytes⟩]
  rw [anchor_body_eq B hbytes hlen hzero]
  rw [sealTag_some_iff]
  have hDlen : (B.drop 16).length = 496 := by simp [List.length_drop, hlen]
  refine ⟨⟨read16_lt B 0 hbytes, read16_lt B 2 hbytes, read16_lt B 6 hbytes,
      by omega, read32_lt B 12 hbytes⟩, ?_⟩
  rw [anchor_tag_eq B hbytes hlen hdcl hres hcsum hcrcD]
  exact (List.take_append_drop 16 B).symm

/-- C1 witness: the round-trip on the concrete canonical Anchor buffer. -/
theorem c1_witness :
    (∀ b ∈ anchorBufCanonical, b < 256) ∧ anchorBufCanonical.length = 512 ∧
      read16 anchorBufCanonical 10 = 496 ∧
      anchorBufCanonical.drop 32 = List.replicate 480 0 ∧
      UDFAnchorVolumeStructure.parse anchorBufCanonical 0 = some anchorSt0 ∧
      anchorSt0.record = some anchorBufCanonical :=
  ⟨by decide, by decide, by decide, by decide, by decide,
   c1_anchor_roundtrip_amended anchorBufCanonical 0 anchorSt0 (by decide) (by decide)
     (by decide) (by decide) (by decide)⟩

end Pycdlib
